import Mathlib

/-
Verification development for the dj-common WebSocket library.

The definitions below are a shallow embedding of the TypeScript sources:
  * `src/WebSocketClient.ts`  — the low-level stream client (namespace `WSC`);
  * the SharedWorker script (second document of `src/index.ts`) — the
    cross-tab host `WebSocketManager` (namespace `Worker`);
  * `src/MessageSocket.ts` (second document) — the facade (namespace `Facade`).

Timers, ports and the DOM are modelled as follows: wall-clock instants are
natural numbers (milliseconds); a `MessagePort` is identified by the tabId it
belongs to; `postMessage`, `new WebSocket(...)` and `setTimeout`-scheduling are
recorded as elements of an explicit action list that each handler returns next
to its updated state.  JavaScript `Map` and `Set` are embedded as association
lists / lists that preserve insertion order, with the exact semantics of
`Map.set`, `Map.delete`, `Map.get`, `Set.add`, `Set.delete`.
-/

namespace DJ

/-- JS `Map.get`: value of the first (and, when keys are unique, only) entry
with the given key. -/
def mapGet {α : Type} (m : List (String × α)) (k : String) : Option α :=
  (m.find? (fun p => p.1 = k)).map (fun p => p.2)

/-- JS `Map.set`: update the entry in place when the key is present, otherwise
append at the end (JS maps preserve insertion order). -/
def mapSet {α : Type} (m : List (String × α)) (k : String) (v : α) :
    List (String × α) :=
  if m.any (fun p => p.1 = k) then
    m.map (fun p => if p.1 = k then (k, v) else p)
  else
    m ++ [(k, v)]

/-- JS `Map.delete`: remove the entry with the given key. -/
def mapDelete {α : Type} (m : List (String × α)) (k : String) :
    List (String × α) :=
  m.filter (fun p => ¬ (p.1 = k))

/-- JS `Set.add`: append when not present. -/
def setAdd (s : List String) (x : String) : List String :=
  if x ∈ s then s else s ++ [x]

/-- JS `Set.delete`. -/
def setDelete (s : List String) (x : String) : List String :=
  s.filter (fun y => ¬ (y = x))

/-- Hexadecimal digit (upper case), as used by `encodeURIComponent`. -/
def hexDigit (n : Nat) : Char :=
  if n < 10 then Char.ofNat (48 + n) else Char.ofNat (55 + n)

/-- UTF-8 bytes of a character (standard encoding of its code point). -/
def utf8Bytes (c : Char) : List Nat :=
  let n := c.toNat
  if n < 0x80 then [n]
  else if n < 0x800 then [0xC0 + n / 0x40, 0x80 + n % 0x40]
  else if n < 0x10000 then
    [0xE0 + n / 0x1000, 0x80 + (n / 0x40) % 0x40, 0x80 + n % 0x40]
  else
    [0xF0 + n / 0x40000, 0x80 + (n / 0x1000) % 0x40,
     0x80 + (n / 0x40) % 0x40, 0x80 + n % 0x40]

/-- Percent-encoding of one byte. -/
def percentByte (b : Nat) : String :=
  String.mk [Char.ofNat 37, hexDigit (b / 16), hexDigit (b % 16)]

/-- Characters `encodeURIComponent` leaves unescaped:
letters, digits, and - _ . ! ~ * ' ( ). -/
def isURIUnescaped (c : Char) : Bool :=
  c.isAlpha || c.isDigit ||
    c ∈ [Char.ofNat 45, Char.ofNat 95, Char.ofNat 46, Char.ofNat 33,
         Char.ofNat 126, Char.ofNat 42, Char.ofNat 39, Char.ofNat 40,
         Char.ofNat 41]

/-- JS `encodeURIComponent`. -/
def encodeURIComponent (s : String) : String :=
  String.join (s.data.map (fun c =>
    if isURIUnescaped c then String.mk [c]
    else String.join ((utf8Bytes c).map percentByte)))

/-- Stream URL derivation used by both the worker (`addTab`) and the facade:
`baseUrl + "/" + userId + "?token=" + encodeURIComponent token`. -/
def buildUrl (base user token : String) : String :=
  base ++ "/" ++ user ++ "?token=" ++ encodeURIComponent token

/-- Ready states of a live `WebSocket` object (readyState CONNECTING = 0,
OPEN = 1; a socket whose close event has fired keeps readyState CLOSED). -/
inductive SockState
  | connecting
  | openSt
  | closed
deriving DecidableEq, Repr

/-- The numeric `WebSocket.CLOSED` constant. -/
def wsCLOSED : Nat := 3

/-- readyState of an optional socket, JS `socket?.readyState ?? CLOSED`. -/
def readyStateOf (s : Option SockState) : Nat :=
  match s with
  | none => wsCLOSED
  | some .connecting => 0
  | some .openSt => 1
  | some .closed => wsCLOSED

/-- A parsed server envelope: `type` plus the rest of the message body
(`data`/`meta`/`timestamp`), which the library never inspects and which we
keep opaque as a string. -/
structure Envelope where
  type : String
  body : String
deriving DecidableEq, Repr

/-- `ServerMessagePayload` forwarded from worker to tabs: raw frame plus the
parsed envelope. -/
structure SMPayload where
  raw : String
  msg : Envelope
deriving DecidableEq, Repr

/-- The result of receiving one text frame: either JSON parsing failed, or it
produced an envelope (whose `type` may still be empty/absent, modelled as ""). -/
inductive Frame
  | malformed (raw : String)
  | wellFormed (raw : String) (env : Envelope)
deriving DecidableEq, Repr

end DJ

namespace DJ.Worker

open DJ

/-- The optional `config` carried by `TAB_INIT` (`InitPayload['config']`);
every field is optional, exactly as in the source. -/
structure Cfg where
  heartbeatInterval : Option Nat
  maxReconnectAttempts : Option Nat
  reconnectDelay : Option Nat
  reconnectDelayMax : Option Nat
  autoReconnect : Option Bool
  logLevel : Option String
deriving DecidableEq, Repr

/-- `TabInfo` of the worker: per-tab record (the `port` field is represented
by the `tabId` the port belongs to). -/
structure TabInfo where
  tabId : String
  isVisible : Bool
  lastSeen : Nat
  registeredTypes : List String
  callbackMap : List (String × String)
deriving DecidableEq, Repr

/-- `InitPayload` of `TAB_INIT`. -/
structure InitPayload where
  url : String
  userId : String
  token : String
  isVisible : Bool
  config : Cfg
  sharedWorkerIdleTimeout : Option Nat
deriving DecidableEq, Repr

/-- Worker-to-tab messages (`WorkerToTabMessageType` plus payload). -/
inductive WMsg
  | connected
  | disconnected
  | message (p : SMPayload)
  | errorMsg (about : String)
  | authConflict (currentUserId newUserId : String)
  | pong
deriving DecidableEq, Repr

/-- One `postMessage` from the worker to the port of tab `dest`. -/
structure WOut where
  dest : String
  msg : WMsg
deriving DecidableEq, Repr

/-- Observable effects of a worker handler: port sends, upstream construction
(`new WebSocket(url)`), arming the reconnect timer (`setTimeout` in
`scheduleReconnect`), closing the upstream (`socket.close()`), sending a frame
upstream, and closing a tab port. -/
inductive Action
  | send (o : WOut)
  | openSocket (url : String)
  | scheduleRec (delay : Nat)
  | closeUpstream
  | sendUpstream (data : String)
  | closePort (tabId : String)
deriving DecidableEq, Repr

/-- State of the worker-side `WebSocketManager`.  Timer objects are modelled
by whether they are armed. -/
structure HostState where
  tabs : List TabInfo
  socket : Option SockState
  lastMessageByType : List (String × SMPayload)
  tabCleanupSet : Bool
  idleTimerSet : Bool
  heartbeatSet : Bool
  reconnectTimerSet : Bool
  reconnectAttempts : Nat
  manualClose : Bool
  currentUrl : Option String
  currentUserId : Option String
  currentToken : Option String
  currentBaseUrl : Option String
  lastOpenAt : Nat
  fastClose1000Count : Nat
  reconnectSuppressedUntil : Nat
  config : Option Cfg
  sharedWorkerIdleTimeout : Nat
deriving Repr

/-- `Map.get` over the tab table (keyed by `tabId`). -/
def tabsGet (tabs : List TabInfo) (id : String) : Option TabInfo :=
  tabs.find? (fun t => t.tabId = id)

/-- `Map.set` over the tab table. -/
def tabsSet (tabs : List TabInfo) (t : TabInfo) : List TabInfo :=
  if tabs.any (fun u => u.tabId = t.tabId) then
    tabs.map (fun u => if u.tabId = t.tabId then t else u)
  else
    tabs ++ [t]

/-- `Map.delete` over the tab table. -/
def tabsDelete (tabs : List TabInfo) (id : String) : List TabInfo :=
  tabs.filter (fun t => ¬ (t.tabId = id))

/-- Update one tab in place. -/
def tabsUpdate (tabs : List TabInfo) (id : String) (f : TabInfo → TabInfo) :
    List TabInfo :=
  tabs.map (fun t => if t.tabId = id then f t else t)

/-- `hasVisibleTab`. -/
def hasVisibleTab (s : HostState) : Bool :=
  s.tabs.any (fun t => t.isVisible)

/-- The worker state right after the `WebSocketManager` is constructed. -/
def initialHost : HostState where
  tabs := []
  socket := none
  lastMessageByType := []
  tabCleanupSet := false
  idleTimerSet := false
  heartbeatSet := false
  reconnectTimerSet := false
  reconnectAttempts := 0
  manualClose := false
  currentUrl := none
  currentUserId := none
  currentToken := none
  currentBaseUrl := none
  lastOpenAt := 0
  fastClose1000Count := 0
  reconnectSuppressedUntil := 0
  config := none
  sharedWorkerIdleTimeout := 30000

/-- `broadcastToAllTabs`. -/
def broadcast (tabs : List TabInfo) (m : WMsg) : List Action :=
  tabs.map (fun t => Action.send ⟨t.tabId, m⟩)

/-- Effective `config?.autoReconnect` (JS truthiness: undefined is falsy). -/
def autoReconnectOn (s : HostState) : Bool :=
  ((s.config.bind (fun c => c.autoReconnect)).getD false)

/-- `scheduleReconnect`. -/
def scheduleReconnect (s : HostState) : HostState × List Action :=
  if s.tabs.isEmpty || ¬ hasVisibleTab s then (s, [])
  else
    let maxAttempts := (s.config.bind (fun c => c.maxReconnectAttempts)).getD 10
    let reconnectDelay := (s.config.bind (fun c => c.reconnectDelay)).getD 3000
    let reconnectDelayMax :=
      (s.config.bind (fun c => c.reconnectDelayMax)).getD 10000
    if s.reconnectAttempts ≥ maxAttempts || s.currentUrl = none ||
        s.manualClose then
      (s, [])
    else
      let attempts := s.reconnectAttempts + 1
      let delay := min (reconnectDelay * attempts) reconnectDelayMax
      ({ s with reconnectAttempts := attempts, reconnectTimerSet := true },
       [Action.scheduleRec delay])

/-- `connect`.  `ctorFails` selects the `catch` branch of
`new WebSocket(url)` (e.g. a malformed URL). -/
def connectFn (s : HostState) (now : Nat) (ctorFails : Bool) :
    HostState × List Action :=
  match s.currentUrl with
  | none => (s, [])
  | some url =>
    if now < s.reconnectSuppressedUntil then (s, [])
    else if ¬ hasVisibleTab s then (s, [])
    else if s.socket = some .openSt ∨ s.socket = some .connecting then (s, [])
    else
      let s1 := { s with manualClose := false, reconnectTimerSet := false }
      if ctorFails then
        let errs := broadcast s1.tabs (.errorMsg "create failed")
        if autoReconnectOn s1 ∧ ¬ s1.manualClose then
          let r2 := scheduleReconnect s1
          (r2.1, errs ++ r2.2)
        else (s1, errs)
      else
        ({ s1 with socket := some .connecting }, [Action.openSocket url])

/-- `disconnect`. -/
def disconnectFn (s : HostState) : HostState × List Action :=
  let s1 := { s with manualClose := true, heartbeatSet := false,
                     idleTimerSet := false, reconnectTimerSet := false }
  if s1.socket = none then ({ s1 with reconnectAttempts := 0 }, [])
  else ({ s1 with socket := none, reconnectAttempts := 0 },
        [Action.closeUpstream])

/-- `checkAllTabsVisibility`. -/
def checkAllTabsVisibility (s : HostState) (now : Nat) :
    HostState × List Action :=
  if s.tabs.isEmpty then (s, [])
  else if s.tabs.all (fun t => ¬ t.isVisible) then
    ({ s with reconnectTimerSet := false, idleTimerSet := true }, [])
  else
    let s1 := { s with idleTimerSet := false }
    if ¬ (s1.socket = some .openSt) then
      if s1.currentUrl ≠ none then connectFn s1 now false
      else (s1, [])
    else (s1, [])

/-- The fresh `TabInfo` record built at the top of `addTab` (empty
`registeredTypes` and `callbackMap`). -/
def freshTab (tabId : String) (isVisible : Bool) (now : Nat) : TabInfo where
  tabId := tabId
  isVisible := isVisible
  lastSeen := now
  registeredTypes := []
  callbackMap := []

/-- `hasExistingIdentity` as computed inside `addTab`. -/
def hasExistingIdentity (s : HostState) : Prop :=
  s.currentBaseUrl ≠ none ∨ s.currentUserId ≠ none ∨
  s.currentToken ≠ none ∨ s.currentUrl ≠ none

instance (s : HostState) : Decidable (hasExistingIdentity s) := by
  unfold hasExistingIdentity; infer_instance

/-- `identityChanged` as computed inside `addTab` (each component counts only
when its stored value is non-null). -/
def identityChanged (s : HostState) (p : InitPayload) : Prop :=
  (s.currentBaseUrl ≠ none ∧ s.currentBaseUrl ≠ some p.url) ∨
  (s.currentUserId ≠ none ∧ s.currentUserId ≠ some p.userId) ∨
  (s.currentToken ≠ none ∧ s.currentToken ≠ some p.token) ∨
  (s.currentUrl ≠ none ∧
    s.currentUrl ≠ some (buildUrl p.url p.userId p.token))

instance (s : HostState) (p : InitPayload) :
    Decidable (identityChanged s p) := by
  unfold identityChanged; infer_instance

/-- The identity-change block in the middle of `addTab` (lines computing the
next connection parameters through the optional disconnect of the old
socket). -/
def addTabIdentity (s1 : HostState) (p : InitPayload) :
    HostState × List Action :=
  let nextUrl := buildUrl p.url p.userId p.token
  if ¬ hasExistingIdentity s1 ∨ identityChanged s1 p then
    let conflictActs :=
      if hasExistingIdentity s1 then
        broadcast s1.tabs (.authConflict (s1.currentUserId.getD "") p.userId)
      else []
    let s2a := { s1 with
      currentBaseUrl := some p.url,
      currentUserId := some p.userId,
      currentToken := some p.token,
      currentUrl := some nextUrl,
      config := some p.config,
      sharedWorkerIdleTimeout := p.sharedWorkerIdleTimeout.getD 30000,
      lastMessageByType := [] }
    if s2a.socket ≠ none then
      let rb := disconnectFn s2a
      (rb.1, conflictActs ++ rb.2)
    else (s2a, conflictActs)
  else
    let newIdle := p.sharedWorkerIdleTimeout.getD s1.sharedWorkerIdleTimeout
    ({ s1 with config := some p.config, sharedWorkerIdleTimeout := newIdle },
     ([] : List Action))

/-- `addTab` (handler of `TAB_INIT`). -/
def addTab (s : HostState) (tabId : String) (p : InitPayload) (now : Nat) :
    HostState × List Action :=
  -- 检查身份冲突 (early per-port warning)
  let earlyActs :=
    match s.currentUserId with
    | some u => if u ≠ p.userId then
        [Action.send ⟨tabId, .authConflict u p.userId⟩] else []
    | none => []
  -- 添加标签页信息
  let s1 := { s with tabs := tabsSet s.tabs (freshTab tabId p.isVisible now),
                     tabCleanupSet := true }
  -- 计算本次期望连接参数并处理登录态切换
  let r2 := addTabIdentity s1 p
  -- 若已有连接，直接通知该标签页
  let acts3 :=
    if r2.1.socket = some .openSt then [Action.send ⟨tabId, .connected⟩]
    else []
  let r4 := checkAllTabsVisibility r2.1 now
  (r4.1, earlyActs ++ r2.2 ++ acts3 ++ r4.2)

/-- `removeTab`. -/
def removeTab (s : HostState) (tabId : String) (now : Nat) :
    HostState × List Action :=
  let s1 := { s with tabs := tabsDelete s.tabs tabId }
  if s1.tabs.isEmpty then
    ({ s1 with reconnectTimerSet := false, tabCleanupSet := false,
               idleTimerSet := true }, [])
  else
    checkAllTabsVisibility s1 now

/-- `updateTabVisibility`. -/
def updateTabVisibility (s : HostState) (tabId : String) (isVisible : Bool)
    (now : Nat) : HostState × List Action :=
  match tabsGet s.tabs tabId with
  | none => (s, [])
  | some _ =>
    let newTabs :=
      tabsUpdate s.tabs tabId
        (fun t => { t with isVisible := isVisible, lastSeen := now })
    checkAllTabsVisibility { s with tabs := newTabs } now

/-- The `onopen` handler of the worker socket (the socket the event fires on
moves to readyState OPEN). -/
def handleOpen (s : HostState) (now : Nat) : HostState × List Action :=
  let s1 := { s with socket := some .openSt, reconnectAttempts := 0,
                     lastOpenAt := now, fastClose1000Count := 0,
                     heartbeatSet := true }
  (s1, broadcast s1.tabs .connected)

/-- The trailing auto-reconnect check shared by both exits of the `onclose`
handler. -/
def closeCommon (s2 : HostState) (acts1 : List Action) :
    HostState × List Action :=
  if ¬ s2.manualClose ∧ autoReconnectOn s2 ∧ s2.tabs.length > 0 ∧
      hasVisibleTab s2 then
    let r3 := scheduleReconnect s2
    (r3.1, acts1 ++ r3.2)
  else (s2, acts1)

/-- The `onclose` handler (the socket moves to readyState CLOSED first). -/
def handleClose (s : HostState) (code : Nat) (now : Nat) :
    HostState × List Action :=
  let s0 := { s with socket := some .closed }
  let liveMs : Int := if s0.lastOpenAt ≠ 0 then (now : Int) - s0.lastOpenAt
                      else -1
  let s1 := { s0 with heartbeatSet := false }
  let acts1 := broadcast s1.tabs .disconnected
  if code = 1000 ∧ 0 ≤ liveMs ∧ liveMs < 3000 then
    let s2 := { s1 with fastClose1000Count := s1.fastClose1000Count + 1 }
    if s2.fastClose1000Count ≥ 3 then
      let s3 := { s2 with reconnectSuppressedUntil := now + 60000 }
      (s3, acts1 ++ broadcast s3.tabs (.errorMsg "fast close 1000 burst"))
    else closeCommon s2 acts1
  else closeCommon { s1 with fastClose1000Count := 0 } acts1

/-- The `onerror` handler. -/
def handleError (s : HostState) : HostState × List Action :=
  let s1 := { s with heartbeatSet := false }
  (s1, broadcast s1.tabs (.errorMsg "socket error"))

/-- `send` (worker → server). -/
def sendFn (s : HostState) (data : String) : HostState × List Action :=
  if s.socket = some .openSt then (s, [Action.sendUpstream data])
  else (s, [])

/-- `handleIncoming`: one `onmessage` frame. -/
def handleIncoming (s : HostState) (f : Frame) : HostState × List Action :=
  match f with
  | .malformed _ => (s, [])
  | .wellFormed raw env =>
    if raw = "" then (s, [])
    else if env.type = "" then (s, [])
    else
      let payload : SMPayload := ⟨raw, env⟩
      let newCache := mapSet s.lastMessageByType env.type payload
      let s1 := { s with lastMessageByType := newCache }
      let sends :=
        (s1.tabs.filter (fun t => env.type ∈ t.registeredTypes)).map
          (fun t => Action.send ⟨t.tabId, .message payload⟩)
      (s1, sends)

/-- The tab-record part of `registerCallback` (lines adding to
`registeredTypes` and `callbackMap`). -/
def tabRegister (t : TabInfo) (ty cid : String) (now : Nat) : TabInfo :=
  { t with lastSeen := now,
           registeredTypes := setAdd t.registeredTypes ty,
           callbackMap := mapSet t.callbackMap cid ty }

/-- `registerCallback`. -/
def registerCallback (s : HostState) (tabId ty cid : String) (now : Nat) :
    HostState × List Action :=
  match tabsGet s.tabs tabId with
  | none => (s, [])
  | some _ =>
    let newTabs := tabsUpdate s.tabs tabId (fun t => tabRegister t ty cid now)
    let s1 := { s with tabs := newTabs }
    match mapGet s1.lastMessageByType ty with
    | some cached => (s1, [Action.send ⟨tabId, .message cached⟩])
    | none => (s1, [])

/-- The tab-record part of `unregisterCallback` when a (truthy) `callbackId`
is supplied. -/
def tabUnregisterOne (t : TabInfo) (cid : String) (now : Nat) : TabInfo :=
  let t0 := { t with lastSeen := now }
  match mapGet t0.callbackMap cid with
  | some ty =>
    if ty = "" then t0  -- JS truthiness: empty type behaves like a miss
    else
      let cm := mapDelete t0.callbackMap cid
      let hasOther := cm.any (fun p => p.2 = ty)
      if hasOther then { t0 with callbackMap := cm }
      else { t0 with callbackMap := cm,
                     registeredTypes := setDelete t0.registeredTypes ty }
  | none => t0

/-- The tab-record part of `unregisterCallback` when no `callbackId` is
supplied: remove the type and every callback of that type. -/
def tabUnregisterAll (t : TabInfo) (ty : String) (now : Nat) : TabInfo :=
  { t with lastSeen := now,
           registeredTypes := setDelete t.registeredTypes ty,
           callbackMap := t.callbackMap.filter (fun p => ¬ (p.2 = ty)) }

/-- `unregisterCallback` (payload `callbackId` is optional; an empty string is
falsy in JS and selects the remove-all branch). -/
def unregisterCallback (s : HostState) (tabId ty : String)
    (cid : Option String) (now : Nat) : HostState × List Action :=
  match tabsGet s.tabs tabId with
  | none => (s, [])
  | some _ =>
    let upd : TabInfo → TabInfo :=
      match cid with
      | some c => if c = "" then (fun t => tabUnregisterAll t ty now)
                  else (fun t => tabUnregisterOne t c now)
      | none => (fun t => tabUnregisterAll t ty now)
    ({ s with tabs := tabsUpdate s.tabs tabId upd }, [])

/-- `forceReset` (handler of `TAB_FORCE_RESET`). -/
def forceReset (s : HostState) : HostState × List Action :=
  let r1 := disconnectFn s
  let s2 := { r1.1 with lastMessageByType := [], currentUrl := none,
                        currentBaseUrl := none, currentUserId := none,
                        currentToken := none }
  (s2, r1.2 ++ broadcast s2.tabs .disconnected)

/-- `forceShutdown` (handler of `TAB_FORCE_SHUTDOWN`). -/
def forceShutdown (s : HostState) : HostState × List Action :=
  let r1 := disconnectFn s
  let s2 := { r1.1 with lastMessageByType := [], currentUrl := none,
                        currentBaseUrl := none, currentUserId := none,
                        currentToken := none }
  let portActs := s2.tabs.flatMap
    (fun t => [Action.send ⟨t.tabId, .disconnected⟩, Action.closePort t.tabId])
  ({ s2 with tabs := [], tabCleanupSet := false }, r1.2 ++ portActs)

/-- `handleNetworkOnline` (handler of `TAB_NETWORK_ONLINE`). -/
def handleNetworkOnline (s : HostState) (now : Nat) :
    HostState × List Action :=
  if s.socket = some .openSt then (s, [])
  else
    let s1 := { s with reconnectAttempts := 0, reconnectTimerSet := false,
                       reconnectSuppressedUntil := 0 }
    if s1.currentUrl ≠ none ∧ hasVisibleTab s1 then connectFn s1 now false
    else (s1, [])

/-- One heartbeat interval tick: emit a PING when the socket is OPEN. -/
def heartbeatTick (s : HostState) : HostState × List Action :=
  if s.socket = some .openSt then (s, [Action.sendUpstream "PING"]) else (s, [])

end DJ.Worker

namespace DJ.Worker

open DJ

/-- Events the worker reacts to: the tab-to-worker message kinds dispatched in
`onconnect`/`port.onmessage`, the socket callbacks, and timer expiries. -/
inductive WEvent
  | tabInit (tabId : String) (p : InitPayload)
  | tabSend (tabId : String) (data : String)
  | tabVisibility (tabId : String) (isVisible : Bool)
  | tabRegister (tabId ty cid : String)
  | tabUnregister (tabId ty : String) (cid : Option String)
  | tabDisconnect (tabId : String)
  | tabPing (tabId : String)
  | tabForceReset (tabId : String)
  | tabForceShutdown (tabId : String)
  | tabNetworkOnline (tabId : String)
  | socketOpen
  | socketClose (code : Nat)
  | socketError
  | serverFrame (f : Frame)
  | reconnectTimerFire (ctorFails : Bool)
  | idleTimerFire
  | heartbeatTimerFire
  | reapTab (tabId : String)
deriving DecidableEq, Repr

/-- The `port.onmessage` preamble refreshes `lastSeen` of the sending tab
before dispatching. -/
def refreshLastSeen (s : HostState) (tabId : String) (now : Nat) : HostState :=
  { s with tabs := tabsUpdate s.tabs tabId (fun t => { t with lastSeen := now }) }

/-- The tabId a tab-to-worker event was sent with, if any. -/
def eventTabId : WEvent → Option String
  | .tabInit id _ => some id
  | .tabSend id _ => some id
  | .tabVisibility id _ => some id
  | .tabRegister id _ _ => some id
  | .tabUnregister id _ _ => some id
  | .tabDisconnect id => some id
  | .tabPing id => some id
  | .tabForceReset id => some id
  | .tabForceShutdown id => some id
  | .tabNetworkOnline id => some id
  | _ => none

/-- Environment preconditions under which an event can fire: socket callbacks
fire only on a live socket, message frames only on an OPEN socket, timers only
when armed, and the stale-tab sweep only evicts a tab silent for more than
45000 ms (`tabStaleTimeout`). -/
def ValidEvent (s : HostState) (e : WEvent) (now : Nat) : Prop :=
  match e with
  | .socketOpen => s.socket = some .connecting
  | .socketClose _ => s.socket = some .connecting ∨ s.socket = some .openSt
  | .socketError => s.socket = some .connecting ∨ s.socket = some .openSt
  | .serverFrame _ => s.socket = some .openSt
  | .reconnectTimerFire _ => s.reconnectTimerSet = true
  | .idleTimerFire => s.idleTimerSet = true
  | .heartbeatTimerFire => s.heartbeatSet = true
  | .reapTab id =>
      ∃ t, tabsGet s.tabs id = some t ∧ t.lastSeen + 45000 < now
  | _ => True

/-- One event step of the worker. -/
def stepHost (s : HostState) (e : WEvent) (now : Nat) :
    HostState × List Action :=
  let s0 := match eventTabId e with
            | some id => refreshLastSeen s id now
            | none => s
  match e with
  | .tabInit id p => addTab s0 id p now
  | .tabSend _ data => sendFn s0 data
  | .tabVisibility id v => updateTabVisibility s0 id v now
  | .tabRegister id ty cid => registerCallback s0 id ty cid now
  | .tabUnregister id ty cid => unregisterCallback s0 id ty cid now
  | .tabDisconnect id => removeTab s0 id now
  | .tabPing id => (s0, [Action.send ⟨id, .pong⟩])
  | .tabForceReset _ => forceReset s0
  | .tabForceShutdown _ => forceShutdown s0
  | .tabNetworkOnline _ => handleNetworkOnline s0 now
  | .socketOpen => handleOpen s0 now
  | .socketClose code => handleClose s0 code now
  | .socketError => handleError s0
  | .serverFrame f => handleIncoming s0 f
  | .reconnectTimerFire cf =>
      connectFn { s0 with reconnectTimerSet := false } now cf
  | .idleTimerFire => disconnectFn { s0 with idleTimerSet := false }
  | .heartbeatTimerFire => heartbeatTick s0
  | .reapTab id => removeTab s0 id now

/-- Reachability of a host state, together with the wall-clock time of the
last processed event; event times are nondecreasing. -/
inductive Reach : HostState → Nat → Prop
  | init : Reach initialHost 0
  | step {s t e now} : Reach s t → t ≤ now → ValidEvent s e now →
      Reach (stepHost s e now).1 now

/-- Whether an action opens a transport connection or schedules a reconnect
attempt. -/
def isConnAct : Action → Bool
  | .openSocket _ => true
  | .scheduleRec _ => true
  | _ => false

/-- Auxiliary invariant: whenever the held socket is live (CONNECTING or
OPEN), the reconnect-suppression deadline lies at or before the time of the
last processed event. -/
def LiveOk (s : HostState) (t : Nat) : Prop :=
  (s.socket = some .connecting ∨ s.socket = some .openSt) →
    s.reconnectSuppressedUntil ≤ t

end DJ.Worker

namespace DJ.WSC

open DJ

/-- `WebSocketConfig` after the constructor merges the defaults: every field
present. -/
structure ClientCfg where
  url : String
  heartbeatInterval : Nat
  maxReconnectAttempts : Nat
  reconnectDelay : Nat
  reconnectDelayMax : Nat
  autoReconnect : Bool
deriving DecidableEq, Repr

/-- Construction-time defaults of `WebSocketClient.DEFAULT_CONFIG`. -/
def defaultClientCfg : ClientCfg where
  url := ""
  heartbeatInterval := 25000
  maxReconnectAttempts := 10
  reconnectDelay := 3000
  reconnectDelayMax := 10000
  autoReconnect := true

/-- A registered `MessageCallbackEntry`; the callback function itself is
opaque and represented by a numeric identity. -/
structure CbEntry where
  type : String
  cb : Nat
deriving DecidableEq, Repr

/-- Observable effects of `WebSocketClient` methods. -/
inductive CAction
  | newTransport (url : String)
  | scheduleRec (delay : Nat)
  | closeTransport
  | sendFrame (data : String)
  | invoke (cb : Nat) (env : Envelope)
deriving DecidableEq, Repr

/-- State of a `WebSocketClient` instance. -/
structure ClientS where
  socket : Option SockState
  heartbeatSet : Bool
  reconnectTimerSet : Bool
  callbackList : List CbEntry
  currentUrl : Option String
  config : ClientCfg
  reconnectAttempts : Nat
  manualClose : Bool
deriving DecidableEq, Repr

/-- A freshly constructed `WebSocketClient`. -/
def newClient (cfg : ClientCfg) : ClientS where
  socket := none
  heartbeatSet := false
  reconnectTimerSet := false
  callbackList := []
  currentUrl := none
  config := cfg
  reconnectAttempts := 0
  manualClose := false

/-- `WebSocketClient.scheduleReconnect`. -/
def scheduleReconnectC (c : ClientS) : ClientS × List CAction :=
  if c.reconnectAttempts ≥ c.config.maxReconnectAttempts ∨
      c.currentUrl = none ∨ c.manualClose then (c, [])
  else
    let attempts := c.reconnectAttempts + 1
    let delay := min (c.config.reconnectDelay * attempts)
      c.config.reconnectDelayMax
    ({ c with reconnectAttempts := attempts, reconnectTimerSet := true },
     [CAction.scheduleRec delay])

/-- The `url || this.config.url` resolution at the top of `connect` (an
empty-string argument is falsy in JS). -/
def resolveTargetUrl (c : ClientS) (url : Option String) : String :=
  match url with
  | some u => if u = "" then c.config.url else u
  | none => c.config.url

/-- `WebSocketClient.connect(url?)`.  `ctorFails` selects the `catch` branch
of `new WebSocket(targetUrl)`. -/
def connect (c : ClientS) (url : Option String) (ctorFails : Bool) :
    ClientS × List CAction :=
  let targetUrl := resolveTargetUrl c url
  if targetUrl = "" then (c, [])
  else
    let c1 := { c with currentUrl := some targetUrl, manualClose := false }
    if ctorFails then
      if c1.config.autoReconnect ∧ ¬ c1.manualClose then
        scheduleReconnectC c1
      else (c1, [])
    else
      ({ c1 with socket := some .connecting }, [CAction.newTransport targetUrl])

/-- The `onopen` handler of the client socket. -/
def handleOpenC (c : ClientS) : ClientS × List CAction :=
  ({ c with socket := some .openSt, reconnectAttempts := 0,
            heartbeatSet := true }, [])

/-- `WebSocketClient.disconnect`. -/
def disconnectC (c : ClientS) : ClientS × List CAction :=
  let c1 := { c with manualClose := true, heartbeatSet := false,
                     reconnectTimerSet := false }
  if c1.socket = none then
    ({ c1 with currentUrl := none, reconnectAttempts := 0 }, [])
  else
    ({ c1 with socket := none, currentUrl := none, reconnectAttempts := 0 },
     [CAction.closeTransport])

/-- `WebSocketClient.getReadyState`. -/
def getReadyState (c : ClientS) : Nat := readyStateOf c.socket

/-- `WebSocketClient.isConnected`. -/
def isConnected (c : ClientS) : Bool := c.socket = some .openSt

end DJ.WSC

namespace DJ.Facade

open DJ

/-- `connectionMode` configuration values. -/
inductive ConnMode
  | auto
  | sharedWorker
  | visibility
  | normal
deriving DecidableEq, Repr

/-- Resolved connection modes (`MessageSocket.currentMode`). -/
inductive Mode
  | sharedWorker
  | visibility
  | normal
deriving DecidableEq, Repr

/-- Capabilities of the runtime the facade probes
(`detectSharedWorkerSupport`, `detectVisibilitySupport`). -/
structure RtEnv where
  sharedWorkerSupported : Bool
  visibilitySupported : Bool
deriving DecidableEq, Repr

/-- `MessageSocketConfig` merged over `DEFAULT_CONFIG`: every recognized field
present. -/
structure FCfg where
  url : String
  heartbeatInterval : Nat
  maxReconnectAttempts : Nat
  reconnectDelay : Nat
  reconnectDelayMax : Nat
  autoReconnect : Bool
  callbacks : List WSC.CbEntry
  enableVisibilityManagement : Bool
  connectionMode : ConnMode
  sharedWorkerIdleTimeout : Nat
  forceNewWorkerOnStart : Bool
deriving DecidableEq, Repr

/-- The client configuration the facade passes to `new WebSocketClient`
(spread of the facade config minus `url`, plus the derived target URL). -/
def toClientCfg (cfg : FCfg) (targetUrl : String) : WSC.ClientCfg where
  url := targetUrl
  heartbeatInterval := cfg.heartbeatInterval
  maxReconnectAttempts := cfg.maxReconnectAttempts
  reconnectDelay := cfg.reconnectDelay
  reconnectDelayMax := cfg.reconnectDelayMax
  autoReconnect := cfg.autoReconnect

/-- A `SharedWorkerManager` instance held by the facade.  `sessionId` records
the allocation order of the instance (object identity of
`new SharedWorkerManager(...)`); `connected` mirrors its flag toggled by
`WORKER_CONNECTED` / `WORKER_DISCONNECTED`. -/
structure WorkerMgr where
  sessionId : Nat
  connected : Bool
deriving DecidableEq, Repr

/-- Observable effects of facade operations. -/
inductive FAction
  | clientCreate (url : String)
  | clientConnect
  | clientDisconnect
  | clientOn (e : WSC.CbEntry)
  | workerCreate (sessionId : Nat)
  | workerStop (sessionId : Nat)
  | workerRegister (sessionId : Nat) (e : WSC.CbEntry)
  | visListenerAdd
  | visListenerRemove
deriving DecidableEq, Repr

/-- Static state of `MessageSocket` (the module-global singleton). -/
structure FState where
  client : Option WSC.ClientS
  workerManager : Option WorkerMgr
  currentMode : Mode
  currentUserId : Option String
  currentToken : Option String
  config : FCfg
  visibilityListenerInitialized : Bool
  allocCounter : Nat
deriving DecidableEq, Repr

/-- `determineConnectionMode`. -/
def determineConnectionMode (cfg : FCfg) (env : RtEnv) : Mode :=
  match cfg.connectionMode with
  | .auto =>
    if env.sharedWorkerSupported then .sharedWorker
    else if env.visibilitySupported ∧ cfg.enableVisibilityManagement then
      .visibility
    else .normal
  | .sharedWorker =>
    if env.sharedWorkerSupported then .sharedWorker
    else if env.visibilitySupported ∧ cfg.enableVisibilityManagement then
      .visibility
    else .normal
  | .visibility => if env.visibilitySupported then .visibility else .normal
  | .normal => .normal

/-- `MessageSocket.stop`. -/
def stopF (s : FState) : FState × List FAction :=
  let r1 : FState × List FAction :=
    match s.client with
    | some _ => ({ s with client := none }, [FAction.clientDisconnect])
    | none => (s, [])
  let r2 : FState × List FAction :=
    match r1.1.workerManager with
    | some m =>
      ({ r1.1 with workerManager := none }, [FAction.workerStop m.sessionId])
    | none => (r1.1, [])
  let r3 : FState × List FAction :=
    if r2.1.visibilityListenerInitialized then
      ({ r2.1 with visibilityListenerInitialized := false },
       [FAction.visListenerRemove])
    else (r2.1, [])
  ({ r3.1 with currentUserId := none, currentToken := none },
   r1.2 ++ r2.2 ++ r3.2)

/-- `MessageSocket.startWithVisibility`. -/
def startWithVisibility (s : FState) (userId token : String) :
    FState × List FAction :=
  let shouldReuse : Bool :=
    match s.client with
    | some c => WSC.isConnected c && s.currentUserId == some userId &&
                s.currentToken == some token
    | none => false
  if shouldReuse then (s, [])
  else
    let r1 := stopF s
    let s2 := { r1.1 with currentUserId := some userId,
                          currentToken := some token }
    let targetUrl := buildUrl s2.config.url userId token
    let c0 := WSC.newClient (toClientCfg s2.config targetUrl)
    let c1 := { c0 with callbackList :=
      s2.config.callbacks.map (fun e => e) }
    let onActs := s2.config.callbacks.map (fun e => FAction.clientOn e)
    let rc := WSC.connect c1 none false
    let connActs := if rc.2.isEmpty then [] else [FAction.clientConnect]
    let s3 := { s2 with client := some rc.1,
                        visibilityListenerInitialized := true }
    (s3, r1.2 ++ [FAction.clientCreate targetUrl] ++ onActs ++
         [FAction.visListenerAdd] ++ connActs)

/-- `MessageSocket.startWithNormalMode`. -/
def startWithNormalMode (s : FState) (userId token : String) :
    FState × List FAction :=
  let shouldReuse : Bool :=
    match s.client with
    | some c => WSC.isConnected c && s.currentUserId == some userId &&
                s.currentToken == some token
    | none => false
  if shouldReuse then (s, [])
  else
    let r1 := stopF s
    let s2 := { r1.1 with currentUserId := some userId,
                          currentToken := some token }
    let targetUrl := buildUrl s2.config.url userId token
    let c0 := WSC.newClient (toClientCfg s2.config targetUrl)
    let c1 := { c0 with callbackList :=
      s2.config.callbacks.map (fun e => e) }
    let onActs := s2.config.callbacks.map (fun e => FAction.clientOn e)
    let rc := WSC.connect c1 none false
    let connActs := if rc.2.isEmpty then [] else [FAction.clientConnect]
    (({ s2 with client := some rc.1 }),
     r1.2 ++ [FAction.clientCreate targetUrl] ++ onActs ++ connActs)

/-- `MessageSocket.startWithSharedWorker`.  `workerStartOk` stands for the
result of `await workerManager.start()`; on failure the facade degrades to
visibility mode. -/
def startWithSharedWorker (s : FState) (userId token : String)
    (workerStartOk : Bool) : FState × List FAction :=
  let r1 := stopF s
  let s2 := { r1.1 with currentUserId := some userId,
                        currentToken := some token }
  let mgr : WorkerMgr := { sessionId := s2.allocCounter, connected := false }
  let s3 := { s2 with workerManager := some mgr,
                      allocCounter := s2.allocCounter + 1 }
  let aCreate := r1.2 ++ [FAction.workerCreate mgr.sessionId]
  if workerStartOk then
    let regActs := s3.config.callbacks.map
      (fun e => FAction.workerRegister mgr.sessionId e)
    (s3, aCreate ++ regActs)
  else
    let s4 := { s3 with currentMode := .visibility, workerManager := none }
    let r5 := startWithVisibility s4 userId token
    (r5.1, aCreate ++ r5.2)

/-- `MessageSocket.start`. -/
def startF (s : FState) (userId token : String) (env : RtEnv)
    (workerStartOk : Bool) : FState × List FAction :=
  if s.config.url = "" then (s, [])
  else if userId = "" ∨ token = "" then (s, [])
  else
    let mode := determineConnectionMode s.config env
    let s1 := { s with currentMode := mode }
    match mode with
    | .sharedWorker => startWithSharedWorker s1 userId token workerStartOk
    | .visibility => startWithVisibility s1 userId token
    | .normal => startWithNormalMode s1 userId token

/-- `MessageSocket.getReadyState`:
`MessageSocket.client?.getReadyState() ?? WebSocket.CLOSED`. -/
def getReadyStateF (s : FState) : Nat :=
  match s.client with
  | some c => WSC.getReadyState c
  | none => wsCLOSED

/-- `MessageSocket.isConnected`. -/
def isConnectedF (s : FState) : Bool :=
  match s.currentMode, s.workerManager with
  | .sharedWorker, some m => m.connected
  | _, _ =>
    match s.client with
    | some c => WSC.isConnected c
    | none => false

/-- The tab-side `SharedWorkerManager` handler of `WORKER_CONNECTED`. -/
def mgrOnConnected (m : WorkerMgr) : WorkerMgr := { m with connected := true }

end DJ.Facade

namespace DJ.Worker

open DJ

/-- One subscription operation on a tab record: the tab-record effect of
`TAB_REGISTER_CALLBACK` / `TAB_UNREGISTER_CALLBACK` (with the optional
`callbackId`), carrying its arrival time. -/
inductive SubOp
  | register (ty cid : String) (now : Nat)
  | unregister (ty : String) (cid : Option String) (now : Nat)
deriving DecidableEq, Repr

/-- Apply one subscription operation to a tab record, exactly as
`registerCallback` / `unregisterCallback` update the record. -/
def applySubOp (t : TabInfo) (op : SubOp) : TabInfo :=
  match op with
  | .register ty cid now => tabRegister t ty cid now
  | .unregister ty cid now =>
    match cid with
    | some c => if c = "" then tabUnregisterAll t ty now
                else tabUnregisterOne t c now
    | none => tabUnregisterAll t ty now

/-- Apply a sequence of subscription operations. -/
def applySubOps (t : TabInfo) (ops : List SubOp) : TabInfo :=
  ops.foldl applySubOp t

/-- The claimed subscription invariant of one tab record: every callback's
type is subscribed, and every subscribed type has at least one callback. -/
def SubInv (t : TabInfo) : Prop :=
  (∀ p ∈ t.callbackMap, p.2 ∈ t.registeredTypes) ∧
  (∀ ty ∈ t.registeredTypes, ∃ p ∈ t.callbackMap, p.2 = ty)

/-- Keys of the callback map are pairwise distinct. -/
def KeysNodup (t : TabInfo) : Prop :=
  (t.callbackMap.map Prod.fst).Nodup

/-- Validity of an operation sequence against a tab record: each
registration uses a callbackId not currently in that tab's map (the claim's
precondition that callbackIds are unique within a tab). -/
inductive ValidOps : TabInfo → List SubOp → Prop
  | nil (t : TabInfo) : ValidOps t []
  | reg {t : TabInfo} {ty cid : String} {now : Nat} {ops : List SubOp}
      (hfresh : ∀ p ∈ t.callbackMap, ¬ (p.1 = cid))
      (hrest : ValidOps (applySubOp t (.register ty cid now)) ops) :
      ValidOps t (.register ty cid now :: ops)
  | unreg {t : TabInfo} {ty : String} {cid : Option String} {now : Nat}
      {ops : List SubOp}
      (hrest : ValidOps (applySubOp t (.unregister ty cid now)) ops) :
      ValidOps t (.unregister ty cid now :: ops)

end DJ.Worker

namespace DJ.Fixtures

open DJ DJ.Worker

/-- A fully populated `TAB_INIT` config used in concrete examples. -/
def exCfg : Cfg where
  heartbeatInterval := some 25000
  maxReconnectAttempts := some 10
  reconnectDelay := some 3000
  reconnectDelayMax := some 10000
  autoReconnect := some true
  logLevel := some "warn"

/-- `TAB_INIT` payload for user u1. -/
def exPayloadA : InitPayload where
  url := "ws://a"
  userId := "u1"
  token := "t1"
  isVisible := true
  config := exCfg
  sharedWorkerIdleTimeout := none

/-- `TAB_INIT` payload for user u2 (different identity). -/
def exPayloadB : InitPayload where
  url := "ws://a"
  userId := "u2"
  token := "t2"
  isVisible := true
  config := exCfg
  sharedWorkerIdleTimeout := none

/-- A cached envelope of type UNREAD. -/
def exPayloadMsg : SMPayload := ⟨"raw1", ⟨"UNREAD", "d1"⟩⟩

/-- An attached, visible tab subscribed to UNREAD. -/
def exTab : TabInfo where
  tabId := "tab1"
  isVisible := true
  lastSeen := 0
  registeredTypes := ["UNREAD"]
  callbackMap := [("cb1", "UNREAD")]

/-- A worker state with one tab, an OPEN upstream, identity u1, and a cached
UNREAD envelope. -/
def exHostIdent : HostState :=
  { initialHost with
      tabs := [exTab]
      socket := some .openSt
      currentBaseUrl := some "ws://a"
      currentUserId := some "u1"
      currentToken := some "t1"
      currentUrl := some (buildUrl "ws://a" "u1" "t1")
      config := some exCfg
      heartbeatSet := true
      lastMessageByType := [("UNREAD", exPayloadMsg)] }

/-- A `WebSocketClient` whose socket is OPEN, for the connect counterexample. -/
def exClient : WSC.ClientS :=
  { WSC.newClient { WSC.defaultClientCfg with url := "ws://x" } with
      socket := some .openSt
      currentUrl := some "ws://x" }

/-- A facade configuration with a URL and auto mode. -/
def exFCfg : Facade.FCfg where
  url := "ws://s"
  heartbeatInterval := 25000
  maxReconnectAttempts := 10
  reconnectDelay := 3000
  reconnectDelayMax := 10000
  autoReconnect := true
  callbacks := []
  enableVisibilityManagement := false
  connectionMode := .auto
  sharedWorkerIdleTimeout := 30000
  forceNewWorkerOnStart := false

/-- A runtime that supports SharedWorker and the visibility API. -/
def exEnv : Facade.RtEnv := ⟨true, true⟩

/-- The pristine facade singleton state. -/
def exFacade0 : Facade.FState where
  client := none
  workerManager := none
  currentMode := .normal
  currentUserId := none
  currentToken := none
  config := exFCfg
  visibilityListenerInitialized := false
  allocCounter := 0

/-- Facade state after a first successful shared-mode start with (u, t). -/
def exFacade1 : Facade.FState :=
  (Facade.startF exFacade0 "u" "t" exEnv true).1

/-- `exFacade1` once the worker has reported `WORKER_CONNECTED`. -/
def exFacade2 : Facade.FState :=
  { exFacade1 with
      workerManager := exFacade1.workerManager.map Facade.mgrOnConnected }

/-- A facade state in sharedWorker mode with a connected worker session and
no local client. -/
def exFacadeShared : Facade.FState where
  client := none
  workerManager := some ⟨0, true⟩
  currentMode := .sharedWorker
  currentUserId := some "u"
  currentToken := some "t"
  config := exFCfg
  visibilityListenerInitialized := false
  allocCounter := 1

end DJ.Fixtures

namespace DJ

/-- Unfolding `mapSet` over a head entry with a different key. -/
theorem mapSet_cons_ne {α : Type} (p : String × α) (m : List (String × α))
    (k : String) (v : α) (hp : ¬ (p.1 = k)) :
    mapSet (p :: m) k v = p :: mapSet m k v := by
  by_cases hm : m.any (fun q => q.1 = k) <;> simp [mapSet, hp, hm]

/-- Unfolding `mapSet` over a head entry with the same key. -/
theorem mapSet_cons_eq {α : Type} (p : String × α) (m : List (String × α))
    (k : String) (v : α) (hp : p.1 = k) :
    mapSet (p :: m) k v =
      (k, v) :: m.map (fun q => if q.1 = k then (k, v) else q) := by
  simp [mapSet, hp]

/-- `Map.get` on a cons whose head has the key. -/
theorem mapGet_cons_eq {α : Type} (p : String × α) (m : List (String × α))
    (k : String) (hp : p.1 = k) : mapGet (p :: m) k = some p.2 := by
  unfold mapGet
  rw [List.find?_cons_of_pos _ (by simp [hp])]
  rfl

/-- `Map.get` on a cons whose head has a different key. -/
theorem mapGet_cons_ne {α : Type} (p : String × α) (m : List (String × α))
    (k : String) (hp : ¬ (p.1 = k)) : mapGet (p :: m) k = mapGet m k := by
  unfold mapGet
  rw [List.find?_cons_of_neg _ (by simp [hp])]

/-- `Map.get` after `Map.set` at the same key yields the new value. -/
theorem mapGet_mapSet_self {α : Type} (m : List (String × α)) (k : String)
    (v : α) : mapGet (mapSet m k v) k = some v := by
  induction m with
  | nil => simp [mapGet, mapSet]
  | cons p m ih =>
    by_cases hp : p.1 = k
    · rw [mapSet_cons_eq p m k v hp, mapGet_cons_eq _ _ _ rfl]
    · rw [mapSet_cons_ne p m k v hp, mapGet_cons_ne _ _ _ hp]
      exact ih

/-- `find?` by key ignores substitution of entries with a different key. -/
theorem find_map_subst {α : Type} (l : List (String × α)) (k k2 : String)
    (v : α) (hne : ¬ (k = k2)) :
    (l.map (fun q => if q.1 = k then (k, v) else q)).find?
        (fun q => q.1 = k2) = l.find? (fun q => q.1 = k2) := by
  induction l with
  | nil => simp
  | cons q l ihl =>
    by_cases hq : q.1 = k
    · have hq2 : ¬ (q.1 = k2) := by rw [hq]; exact hne
      rw [List.map_cons, if_pos hq,
          List.find?_cons_of_neg _ (by simp [hne]),
          List.find?_cons_of_neg _ (by simp [hq2])]
      exact ihl
    · rw [List.map_cons, if_neg hq]
      by_cases hq2 : q.1 = k2
      · rw [List.find?_cons_of_pos _ (by simp [hq2]),
            List.find?_cons_of_pos _ (by simp [hq2])]
      · rw [List.find?_cons_of_neg _ (by simp [hq2]),
            List.find?_cons_of_neg _ (by simp [hq2])]
        exact ihl

/-- `Map.get` after `Map.set` at a different key is unchanged. -/
theorem mapGet_mapSet_other {α : Type} (m : List (String × α)) (k k2 : String)
    (v : α) (hne : ¬ (k2 = k)) : mapGet (mapSet m k v) k2 = mapGet m k2 := by
  have hne2 : ¬ (k = k2) := fun h => hne h.symm
  induction m with
  | nil =>
    unfold mapSet mapGet
    simp [hne2]
  | cons p m ih =>
    by_cases hp : p.1 = k
    · have hk2p : ¬ (p.1 = k2) := by rw [hp]; exact hne2
      rw [mapSet_cons_eq p m k v hp,
          mapGet_cons_ne _ _ _ (by simpa using hne2),
          mapGet_cons_ne p m k2 hk2p]
      unfold mapGet
      rw [find_map_subst m k k2 v hne2]
    · rw [mapSet_cons_ne p m k v hp]
      by_cases hq2 : p.1 = k2
      · rw [mapGet_cons_eq _ _ _ hq2, mapGet_cons_eq _ _ _ hq2]
      · rw [mapGet_cons_ne _ _ _ hq2, mapGet_cons_ne _ _ _ hq2]
        exact ih

end DJ

namespace DJ.Worker

open DJ

/-- `find?` on the tab table after `tabsSet` returns the stored record. -/
theorem tabsGet_tabsSet_self (tabs : List TabInfo) (t : TabInfo) :
    tabsGet (tabsSet tabs t) t.tabId = some t := by
  induction tabs with
  | nil => simp [tabsGet, tabsSet]
  | cons u tabs ih =>
    by_cases hu : u.tabId = t.tabId
    · have : tabsSet (u :: tabs) t =
          t :: tabs.map (fun w => if w.tabId = t.tabId then t else w) := by
        simp [tabsSet, hu]
      rw [this]
      unfold tabsGet
      rw [List.find?_cons_of_pos _ (by simp)]
    · by_cases hm : tabs.any (fun w => w.tabId = t.tabId)
      · have : tabsSet (u :: tabs) t = u :: tabsSet tabs t := by
          simp [tabsSet, hu, hm]
        rw [this]
        unfold tabsGet
        rw [List.find?_cons_of_neg _ (by simp [hu])]
        exact ih
      · have : tabsSet (u :: tabs) t = u :: tabsSet tabs t := by
          simp [tabsSet, hu, hm]
        rw [this]
        unfold tabsGet
        rw [List.find?_cons_of_neg _ (by simp [hu])]
        exact ih

end DJ.Worker

namespace DJ.Claims

open DJ DJ.Worker

/-- C2: the worker caches, per message type, the most recent valid server
envelope — each new envelope of a type overwrites the previous entry and
leaves other types untouched — and when a tab registers a callback for a type
with a cached envelope, `registerCallback` emits exactly one `WORKER_MESSAGE`
carrying that envelope, addressed to that tab's port and to no other tab. -/
theorem c2_last_message_cache_and_replay
    (s s2 : HostState) (raw : String) (env : Envelope)
    (tabId ty cid ty2 : String) (now : Nat) :
    (raw ≠ "" → env.type ≠ "" →
      mapGet (handleIncoming s (.wellFormed raw env)).1.lastMessageByType
          env.type = some ⟨raw, env⟩ ∧
      (ty2 ≠ env.type →
        mapGet (handleIncoming s (.wellFormed raw env)).1.lastMessageByType
            ty2 = mapGet s.lastMessageByType ty2)) ∧
    (∀ t p, tabsGet s2.tabs tabId = some t →
      mapGet s2.lastMessageByType ty = some p →
      (registerCallback s2 tabId ty cid now).2 =
        [Action.send ⟨tabId, .message p⟩]) := by
  constructor
  · intro hraw htype
    constructor
    · simp only [handleIncoming, if_neg hraw, if_neg htype]
      exact mapGet_mapSet_self _ _ _
    · intro hne
      simp only [handleIncoming, if_neg hraw, if_neg htype]
      exact mapGet_mapSet_other _ _ _ _ hne
  · intro t p ht hp
    simp only [registerCallback, ht]
    simp only [hp]

/-- Witness for C2 at a concrete worker state. -/
theorem c2_witness :
    ("raw2" ≠ "" ∧ "UNREAD" ≠ "" ∧
      tabsGet Fixtures.exHostIdent.tabs "tab1" = some Fixtures.exTab ∧
      mapGet Fixtures.exHostIdent.lastMessageByType "UNREAD" =
        some Fixtures.exPayloadMsg) ∧
    (mapGet (handleIncoming Fixtures.exHostIdent
        (.wellFormed "raw2" ⟨"UNREAD", "d2"⟩)).1.lastMessageByType "UNREAD" =
      some ⟨"raw2", ⟨"UNREAD", "d2"⟩⟩ ∧
     (registerCallback Fixtures.exHostIdent "tab1" "UNREAD" "cb9" 7).2 =
      [Action.send ⟨"tab1", .message Fixtures.exPayloadMsg⟩]) := by
  refine ⟨⟨by decide, by decide, by decide, by decide⟩, ?_, ?_⟩
  · exact ((c2_last_message_cache_and_replay Fixtures.exHostIdent
      Fixtures.exHostIdent "raw2" ⟨"UNREAD", "d2"⟩ "tab1" "UNREAD" "cb9" "X"
      7).1 (by decide) (by decide)).1
  · exact (c2_last_message_cache_and_replay Fixtures.exHostIdent
      Fixtures.exHostIdent "raw2" ⟨"UNREAD", "d2"⟩ "tab1" "UNREAD" "cb9" "X"
      7).2 Fixtures.exTab Fixtures.exPayloadMsg (by decide) (by decide)

/-- C8: when the worker receives a tab message whose tabId is not in its tab
table, it does nothing at all — in particular it sends no message back; no
`WORKER_TAB_NOT_FOUND` notification exists on the worker side (the claimed
reinitialize instruction is never produced). -/
theorem c8_unknown_tab_silently_ignored
    (s : HostState) (tabId ty cid : String) (cido : Option String) (now : Nat)
    (h : tabsGet s.tabs tabId = none) :
    registerCallback s tabId ty cid now = (s, []) ∧
    unregisterCallback s tabId ty cido now = (s, []) ∧
    updateTabVisibility s tabId true now = (s, []) := by
  refine ⟨?_, ?_, ?_⟩
  · simp [registerCallback, h]
  · simp [unregisterCallback, h]
  · simp [updateTabVisibility, h]

/-- Witness for C8: a register request from an unknown tab id. -/
theorem c8_witness :
    tabsGet Fixtures.exHostIdent.tabs "ghost" = none ∧
    registerCallback Fixtures.exHostIdent "ghost" "UNREAD" "cb1" 9 =
      (Fixtures.exHostIdent, []) := by
  refine ⟨by decide, ?_⟩
  exact (c8_unknown_tab_silently_ignored Fixtures.exHostIdent "ghost" "UNREAD"
    "cb1" none 9 (by decide)).1

/-- C9: in sharedWorker mode the facade holds no local client, so
`getReadyState` returns the `WebSocket.CLOSED` constant (3) while
`isConnected` reports the worker flag — the two accessors disagree whenever
the worker session is connected. -/
theorem c9_ready_state_disagrees
    (s : Facade.FState) (m : Facade.WorkerMgr)
    (hmode : s.currentMode = .sharedWorker) (hc : s.client = none)
    (hm : s.workerManager = some m) (hconn : m.connected = true) :
    Facade.getReadyStateF s = wsCLOSED ∧ wsCLOSED = 3 ∧
    Facade.isConnectedF s = true := by
  refine ⟨?_, rfl, ?_⟩
  · simp [Facade.getReadyStateF, hc]
  · simp [Facade.isConnectedF, hmode, hm, hconn]

/-- Witness for C9 at a concrete shared-mode facade state. -/
theorem c9_witness :
    (Fixtures.exFacadeShared.currentMode = .sharedWorker ∧
     Fixtures.exFacadeShared.client = none ∧
     Fixtures.exFacadeShared.workerManager = some ⟨0, true⟩) ∧
    (Facade.getReadyStateF Fixtures.exFacadeShared = 3 ∧
     Facade.isConnectedF Fixtures.exFacadeShared = true) := by
  refine ⟨⟨by decide, by decide, by decide⟩, ?_⟩
  have h := c9_ready_state_disagrees Fixtures.exFacadeShared ⟨0, true⟩
    (by decide) (by decide) (by decide) (by decide)
  exact ⟨h.2.1 ▸ h.1, h.2.2⟩

end DJ.Claims

namespace DJ.Worker

open DJ

/-- `scheduleReconnect` touches only the attempt counter and the timer flag. -/
theorem scheduleReconnect_preserves (s : HostState) :
    (scheduleReconnect s).1.tabs = s.tabs ∧
    (scheduleReconnect s).1.socket = s.socket ∧
    (scheduleReconnect s).1.reconnectSuppressedUntil =
      s.reconnectSuppressedUntil ∧
    (scheduleReconnect s).1.lastMessageByType = s.lastMessageByType ∧
    (scheduleReconnect s).1.currentUrl = s.currentUrl ∧
    (scheduleReconnect s).1.currentUserId = s.currentUserId ∧
    (scheduleReconnect s).1.currentToken = s.currentToken ∧
    (scheduleReconnect s).1.currentBaseUrl = s.currentBaseUrl := by
  unfold scheduleReconnect
  dsimp only
  split
  · exact ⟨rfl, rfl, rfl, rfl, rfl, rfl, rfl, rfl⟩
  · split
    · exact ⟨rfl, rfl, rfl, rfl, rfl, rfl, rfl, rfl⟩
    · exact ⟨rfl, rfl, rfl, rfl, rfl, rfl, rfl, rfl⟩

/-- `connect` touches neither the tab table, nor the suppression deadline,
nor the cache, nor the identity. -/
theorem connectFn_preserves (s : HostState) (now : Nat) (f : Bool) :
    (connectFn s now f).1.tabs = s.tabs ∧
    (connectFn s now f).1.reconnectSuppressedUntil =
      s.reconnectSuppressedUntil ∧
    (connectFn s now f).1.lastMessageByType = s.lastMessageByType ∧
    (connectFn s now f).1.currentUrl = s.currentUrl ∧
    (connectFn s now f).1.currentUserId = s.currentUserId ∧
    (connectFn s now f).1.currentToken = s.currentToken ∧
    (connectFn s now f).1.currentBaseUrl = s.currentBaseUrl := by
  unfold connectFn
  dsimp only
  split
  · exact ⟨rfl, rfl, rfl, rfl, rfl, rfl, rfl⟩
  · split
    · exact ⟨rfl, rfl, rfl, rfl, rfl, rfl, rfl⟩
    · split
      · exact ⟨rfl, rfl, rfl, rfl, rfl, rfl, rfl⟩
      · split
        · exact ⟨rfl, rfl, rfl, rfl, rfl, rfl, rfl⟩
        · split
          · split
            · have h := scheduleReconnect_preserves
                { s with manualClose := false, reconnectTimerSet := false }
              exact ⟨h.1, h.2.2.1, h.2.2.2.1, h.2.2.2.2.1, h.2.2.2.2.2.1,
                h.2.2.2.2.2.2.1, h.2.2.2.2.2.2.2⟩
            · exact ⟨rfl, rfl, rfl, rfl, rfl, rfl, rfl⟩
          · exact ⟨rfl, rfl, rfl, rfl, rfl, rfl, rfl⟩

end DJ.Worker

namespace DJ.Worker

open DJ

/-- `disconnect` nulls the socket and touches neither the tab table, the
suppression deadline, the cache, nor the identity. -/
theorem disconnectFn_preserves (s : HostState) :
    (disconnectFn s).1.tabs = s.tabs ∧
    (disconnectFn s).1.socket = none ∧
    (disconnectFn s).1.reconnectSuppressedUntil =
      s.reconnectSuppressedUntil ∧
    (disconnectFn s).1.lastMessageByType = s.lastMessageByType ∧
    (disconnectFn s).1.currentUrl = s.currentUrl ∧
    (disconnectFn s).1.currentUserId = s.currentUserId ∧
    (disconnectFn s).1.currentToken = s.currentToken ∧
    (disconnectFn s).1.currentBaseUrl = s.currentBaseUrl := by
  unfold disconnectFn
  dsimp only
  split
  · next h => exact ⟨rfl, h, rfl, rfl, rfl, rfl, rfl, rfl⟩
  · exact ⟨rfl, rfl, rfl, rfl, rfl, rfl, rfl, rfl⟩

/-- `checkAllTabsVisibility` touches neither the tab table, nor the
suppression deadline, nor the cache, nor the identity. -/
theorem checkVis_preserves (s : HostState) (now : Nat) :
    (checkAllTabsVisibility s now).1.tabs = s.tabs ∧
    (checkAllTabsVisibility s now).1.reconnectSuppressedUntil =
      s.reconnectSuppressedUntil ∧
    (checkAllTabsVisibility s now).1.lastMessageByType =
      s.lastMessageByType ∧
    (checkAllTabsVisibility s now).1.currentUrl = s.currentUrl ∧
    (checkAllTabsVisibility s now).1.currentUserId = s.currentUserId ∧
    (checkAllTabsVisibility s now).1.currentToken = s.currentToken ∧
    (checkAllTabsVisibility s now).1.currentBaseUrl = s.currentBaseUrl := by
  unfold checkAllTabsVisibility
  dsimp only
  split
  · exact ⟨rfl, rfl, rfl, rfl, rfl, rfl, rfl⟩
  · split
    · exact ⟨rfl, rfl, rfl, rfl, rfl, rfl, rfl⟩
    · split
      · split
        · exact connectFn_preserves { s with idleTimerSet := false } now false
        · exact ⟨rfl, rfl, rfl, rfl, rfl, rfl, rfl⟩
      · exact ⟨rfl, rfl, rfl, rfl, rfl, rfl, rfl⟩

/-- The identity block of `addTab` keeps the tab table. -/
theorem addTabIdentity_tabs (s : HostState) (p : InitPayload) :
    (addTabIdentity s p).1.tabs = s.tabs := by
  unfold addTabIdentity
  dsimp only
  split
  · split
    · exact (disconnectFn_preserves _).1
    · rfl
  · rfl

/-- The tab table after `addTab` is the old table with a fresh record stored
under the new tab's id. -/
theorem addTab_tabs (s : HostState) (tabId : String) (p : InitPayload)
    (now : Nat) :
    (addTab s tabId p now).1.tabs =
      tabsSet s.tabs (freshTab tabId p.isVisible now) := by
  unfold addTab
  dsimp only
  rw [(checkVis_preserves _ now).1, addTabIdentity_tabs]

end DJ.Worker

namespace DJ.Worker

open DJ

/-- Any entry of `tabsSet tabs tnew` carrying the new record's id is the new
record itself. -/
theorem tabsSet_mem_id (tabs : List TabInfo) (tnew t : TabInfo)
    (h : t ∈ tabsSet tabs tnew) (hid : t.tabId = tnew.tabId) : t = tnew := by
  unfold tabsSet at h
  by_cases hm : tabs.any (fun u => u.tabId = tnew.tabId)
  · rw [if_pos hm] at h
    obtain ⟨u, _, hu⟩ := List.mem_map.mp h
    by_cases hcase : u.tabId = tnew.tabId
    · rw [if_pos hcase] at hu; exact hu.symm
    · rw [if_neg hcase] at hu
      rw [hu] at hcase
      exact absurd hid hcase
  · rw [if_neg hm] at h
    rcases List.mem_append.mp h with h | h
    · rw [List.any_eq_true] at hm
      exact absurd ⟨t, h, by simp [hid]⟩ hm
    · simpa using h

end DJ.Worker

namespace DJ.Claims

open DJ DJ.Worker

/-- C10: `TAB_INIT` for an already-attached tabId replaces the record
wholesale — afterwards the stored record is the fresh one with empty
`registeredTypes` and `callbackMap` — so the worker delivers no further
`WORKER_MESSAGE` to that tab for previously subscribed types until the tab
re-registers them. -/
theorem c10_reinit_replaces_record (s : HostState) (tabId : String)
    (p : InitPayload) (now : Nat) (t0 : TabInfo)
    (_hmem : tabsGet s.tabs tabId = some t0) :
    tabsGet (addTab s tabId p now).1.tabs tabId =
      some (freshTab tabId p.isVisible now) ∧
    (freshTab tabId p.isVisible now).registeredTypes = [] ∧
    (freshTab tabId p.isVisible now).callbackMap = [] ∧
    ∀ (f : Frame) (m : WMsg), Action.send ⟨tabId, m⟩ ∉
      (handleIncoming (addTab s tabId p now).1 f).2 := by
  refine ⟨?_, rfl, rfl, ?_⟩
  · rw [addTab_tabs]
    exact tabsGet_tabsSet_self s.tabs (freshTab tabId p.isVisible now)
  · intro f m hmemAct
    match f with
    | .malformed raw => simp [handleIncoming] at hmemAct
    | .wellFormed raw env =>
      by_cases hraw : raw = ""
      · simp [handleIncoming, hraw] at hmemAct
      · by_cases htype : env.type = ""
        · simp [handleIncoming, hraw, htype] at hmemAct
        · simp only [handleIncoming, if_neg hraw, if_neg htype] at hmemAct
          obtain ⟨t, htf, hts⟩ := List.mem_map.mp hmemAct
          obtain ⟨htm, htreg⟩ := List.mem_filter.mp htf
          have hid : t.tabId = tabId := by
            have := congrArg (fun a => match a with
              | Action.send o => o.dest
              | _ => "") hts
            simpa using this
          have ht : t = freshTab tabId p.isVisible now := by
            apply tabsSet_mem_id s.tabs (freshTab tabId p.isVisible now) t
            · rw [← addTab_tabs s tabId p now]; exact htm
            · exact hid
          rw [ht] at htreg
          simp [freshTab] at htreg

/-- Witness for C10 at a concrete state where tab1 was subscribed to
UNREAD. -/
theorem c10_witness :
    tabsGet Fixtures.exHostIdent.tabs "tab1" = some Fixtures.exTab ∧
    tabsGet (addTab Fixtures.exHostIdent "tab1" Fixtures.exPayloadA 5).1.tabs
        "tab1" = some (freshTab "tab1" true 5) ∧
    (freshTab "tab1" true 5).registeredTypes = [] := by
  refine ⟨by decide, ?_, by decide⟩
  have h := c10_reinit_replaces_record Fixtures.exHostIdent "tab1"
    Fixtures.exPayloadA 5 Fixtures.exTab (by decide)
  exact h.1

end DJ.Claims

namespace DJ.Claims

open DJ DJ.WSC

/-- Counterexample to C7: on a client whose socket is OPEN, `connect()`
immediately constructs a second transport, replacing the held socket with a
fresh CONNECTING one — it is not idempotent in the OPEN state. -/
theorem c7_counterexample :
    WSC.isConnected Fixtures.exClient = true ∧
    (WSC.connect Fixtures.exClient none false).2 =
      [CAction.newTransport "ws://x"] ∧
    (WSC.connect Fixtures.exClient none false).1.socket =
      some .connecting := by
  refine ⟨by decide, by decide, by decide⟩

/-- C7 amended: `connect(url?)` with a usable URL always constructs a new
transport connection and replaces the held socket reference (without closing
it), whatever the previous state; on a successful open the reconnect-attempt
counter is reset to 0. -/
theorem c7_connect_always_reconnects
    (c c2 : ClientS) (url : Option String)
    (hurl : resolveTargetUrl c url ≠ "") :
    (WSC.connect c url false).2 =
      [CAction.newTransport (resolveTargetUrl c url)] ∧
    (WSC.connect c url false).1.socket = some .connecting ∧
    CAction.closeTransport ∉ (WSC.connect c url false).2 ∧
    (WSC.handleOpenC c2).1.reconnectAttempts = 0 := by
  refine ⟨?_, ?_, ?_, rfl⟩
  · simp [WSC.connect, hurl]
  · simp [WSC.connect, hurl]
  · simp [WSC.connect, hurl]

/-- Witness for the amended C7 statement. -/
theorem c7_witness :
    resolveTargetUrl Fixtures.exClient none ≠ "" ∧
    (WSC.connect Fixtures.exClient none false).1.socket =
      some .connecting := by
  refine ⟨by decide, ?_⟩
  exact (c7_connect_always_reconnects Fixtures.exClient Fixtures.exClient
    none (by decide)).2.1

end DJ.Claims

namespace DJ.Worker

open DJ

/-- `scheduleReconnect` keeps the fast-close counter. -/
theorem scheduleReconnect_fastCount (s : HostState) :
    (scheduleReconnect s).1.fastClose1000Count = s.fastClose1000Count := by
  unfold scheduleReconnect
  dsimp only
  split
  · rfl
  · split <;> rfl

/-- Every attached tab receives a broadcast message. -/
theorem broadcast_mem (tabs : List TabInfo) (m : WMsg) (t : TabInfo)
    (h : t ∈ tabs) : Action.send ⟨t.tabId, m⟩ ∈ broadcast tabs m :=
  List.mem_map_of_mem _ h

/-- `closeCommon` keeps the fast-close counter. -/
theorem closeCommon_fastCount (s2 : HostState) (acts1 : List Action) :
    (closeCommon s2 acts1).1.fastClose1000Count = s2.fastClose1000Count := by
  unfold closeCommon
  dsimp only
  split
  · exact scheduleReconnect_fastCount s2
  · rfl

/-- `closeCommon` keeps the suppression deadline. -/
theorem closeCommon_suppressed (s2 : HostState) (acts1 : List Action) :
    (closeCommon s2 acts1).1.reconnectSuppressedUntil =
      s2.reconnectSuppressedUntil := by
  unfold closeCommon
  dsimp only
  split
  · exact (scheduleReconnect_preserves s2).2.2.1
  · rfl

/-- `closeCommon` keeps the socket. -/
theorem closeCommon_socket (s2 : HostState) (acts1 : List Action) :
    (closeCommon s2 acts1).1.socket = s2.socket := by
  unfold closeCommon
  dsimp only
  split
  · exact (scheduleReconnect_preserves s2).2.1
  · rfl

/-- `closeCommon` keeps the tab table. -/
theorem closeCommon_tabs (s2 : HostState) (acts1 : List Action) :
    (closeCommon s2 acts1).1.tabs = s2.tabs := by
  unfold closeCommon
  dsimp only
  split
  · exact (scheduleReconnect_preserves s2).1
  · rfl

end DJ.Worker

namespace DJ.Claims

open DJ DJ.Worker

/-- C3: the worker increments `fastClose1000Count` exactly on upstream closes
with code 1000 occurring less than 3000 ms after the last open (any other
close resets the counter to 0); when the incremented counter reaches 3 the
suppression deadline is set 60000 ms ahead and `WORKER_ERROR` is broadcast to
every tab; a successful open resets the counter to 0; and while the deadline
has not passed, `connect` refuses to act. -/
theorem c3_fast_close_circuit_breaker
    (s s2 s3 : HostState) (code now now2 now3 : Nat) (f : Bool)
    (htime : s.lastOpenAt ≤ now) :
    ((handleClose s code now).1.fastClose1000Count =
      if code = 1000 ∧ s.lastOpenAt ≠ 0 ∧ now - s.lastOpenAt < 3000
      then s.fastClose1000Count + 1 else 0) ∧
    (code = 1000 → s.lastOpenAt ≠ 0 → now - s.lastOpenAt < 3000 →
      s.fastClose1000Count + 1 ≥ 3 →
      (handleClose s code now).1.reconnectSuppressedUntil = now + 60000 ∧
      ∀ t ∈ s.tabs,
        Action.send ⟨t.tabId, .errorMsg "fast close 1000 burst"⟩
          ∈ (handleClose s code now).2) ∧
    ((handleOpen s2 now2).1.fastClose1000Count = 0) ∧
    (now3 < s3.reconnectSuppressedUntil → connectFn s3 now3 f = (s3, [])) := by
  have hiff : (code = 1000 ∧
      0 ≤ (if s.lastOpenAt ≠ 0 then ((now : Int) - s.lastOpenAt) else -1) ∧
      (if s.lastOpenAt ≠ 0 then ((now : Int) - s.lastOpenAt) else -1)
        < 3000) ↔
      (code = 1000 ∧ s.lastOpenAt ≠ 0 ∧ now - s.lastOpenAt < 3000) := by
    by_cases h0 : s.lastOpenAt = 0
    · simp [h0]
    · rw [if_pos h0]
      constructor
      · rintro ⟨hc, hge, hlt⟩
        exact ⟨hc, h0, by omega⟩
      · rintro ⟨hc, _, hlt⟩
        exact ⟨hc, by omega, by omega⟩
  refine ⟨?_, ?_, rfl, ?_⟩
  · unfold handleClose
    dsimp only
    rw [if_congr hiff rfl rfl]
    split
    · split
      · rfl
      · rw [closeCommon_fastCount]
    · rw [closeCommon_fastCount]
  · intro hc h0 hlt hcount
    unfold handleClose
    dsimp only
    rw [if_congr hiff rfl rfl, if_pos ⟨hc, h0, hlt⟩, if_pos hcount]
    refine ⟨rfl, fun t ht => ?_⟩
    exact List.mem_append_right _ (broadcast_mem _ _ t ht)
  · intro hsup
    unfold connectFn
    cases hcu : s3.currentUrl with
    | none => rfl
    | some u =>
      dsimp only
      rw [if_pos hsup]

/-- Witness for C3: from a state with two prior fast closes and an open at
time 1000, a code-1000 close at time 2000 trips the breaker. -/
theorem c3_witness :
    ({ Fixtures.exHostIdent with
        lastOpenAt := 1000, fastClose1000Count := 2 } :
          HostState).lastOpenAt ≤ 2000 ∧
    (handleClose { Fixtures.exHostIdent with
        lastOpenAt := 1000, fastClose1000Count := 2 } 1000
        2000).1.fastClose1000Count =
      (if (1000 : Nat) = 1000 ∧ (1000 : Nat) ≠ 0 ∧ 2000 - 1000 < 3000
       then 2 + 1 else 0) ∧
    (handleClose { Fixtures.exHostIdent with
        lastOpenAt := 1000, fastClose1000Count := 2 } 1000
        2000).1.reconnectSuppressedUntil = 2000 + 60000 := by
  have h := c3_fast_close_circuit_breaker
    { Fixtures.exHostIdent with lastOpenAt := 1000, fastClose1000Count := 2 }
    Fixtures.exHostIdent Fixtures.exHostIdent 1000 2000 0 0 false
    (by decide)
  exact ⟨by decide, h.1, (h.2.1 rfl (by decide) (by decide) (by decide)).1⟩

end DJ.Claims

namespace DJ.Worker

open DJ

/-- `disconnect` emits a close action exactly when a socket was held. -/
theorem disconnectFn_acts (s : HostState) :
    (disconnectFn s).2 =
      if s.socket = none then [] else [Action.closeUpstream] := by
  unfold disconnectFn
  dsimp only
  split
  · rfl
  · rfl

/-- A successful-constructor `connect` call emits at most the transport
construction. -/
theorem connectFn_acts_false (s : HostState) (now : Nat) :
    ∀ a ∈ (connectFn s now false).2, ∃ url, a = Action.openSocket url := by
  unfold connectFn
  cases s.currentUrl with
  | none => intro a ha; simp at ha
  | some u =>
    dsimp only
    split
    · intro a ha; simp at ha
    · split
      · intro a ha; simp at ha
      · split
        · intro a ha; simp at ha
        · split
          · next hf => exact absurd hf (by simp)
          · intro a ha
            exact ⟨u, by simpa using ha⟩

/-- `checkAllTabsVisibility` emits at most a transport construction. -/
theorem checkVis_acts (s : HostState) (now : Nat) :
    ∀ a ∈ (checkAllTabsVisibility s now).2,
      ∃ url, a = Action.openSocket url := by
  unfold checkAllTabsVisibility
  dsimp only
  split
  · intro a ha; simp at ha
  · split
    · intro a ha; simp at ha
    · split
      · split
        · exact connectFn_acts_false _ now
        · intro a ha; simp at ha
      · intro a ha; simp at ha

/-- `connect` leaves the socket alone or replaces it by a fresh CONNECTING
one. -/
theorem connectFn_socket (s : HostState) (now : Nat) (f : Bool) :
    (connectFn s now f).1.socket = s.socket ∨
    (connectFn s now f).1.socket = some .connecting := by
  unfold connectFn
  cases s.currentUrl with
  | none => exact Or.inl rfl
  | some u =>
    dsimp only
    split
    · exact Or.inl rfl
    · split
      · exact Or.inl rfl
      · split
        · exact Or.inl rfl
        · split
          · split
            · exact Or.inl (scheduleReconnect_preserves _).2.1
            · exact Or.inl rfl
          · exact Or.inr rfl

/-- `checkAllTabsVisibility` leaves the socket alone or replaces it by a
fresh CONNECTING one. -/
theorem checkVis_socket (s : HostState) (now : Nat) :
    (checkAllTabsVisibility s now).1.socket = s.socket ∨
    (checkAllTabsVisibility s now).1.socket = some .connecting := by
  unfold checkAllTabsVisibility
  dsimp only
  split
  · exact Or.inl rfl
  · split
    · exact Or.inl rfl
    · split
      · split
        · exact connectFn_socket _ now false
        · exact Or.inl rfl
      · exact Or.inl rfl

/-- Outcome of the identity block of `addTab` when the identity is fresh or
has changed: the new identity is adopted, the cache is cleared, the socket is
dropped (with a close action when one was held), and — when an identity
already existed — the auth-conflict notice is broadcast to every attached
tab. -/
theorem addTabIdentity_changed (s1 : HostState) (p : InitPayload)
    (h : ¬ hasExistingIdentity s1 ∨ identityChanged s1 p) :
    (addTabIdentity s1 p).1.socket = none ∧
    (addTabIdentity s1 p).1.lastMessageByType = [] ∧
    (addTabIdentity s1 p).1.currentBaseUrl = some p.url ∧
    (addTabIdentity s1 p).1.currentUserId = some p.userId ∧
    (addTabIdentity s1 p).1.currentToken = some p.token ∧
    (addTabIdentity s1 p).1.currentUrl =
      some (buildUrl p.url p.userId p.token) ∧
    (s1.socket ≠ none → Action.closeUpstream ∈ (addTabIdentity s1 p).2) ∧
    (hasExistingIdentity s1 → ∀ t ∈ s1.tabs,
      Action.send ⟨t.tabId,
          .authConflict (s1.currentUserId.getD "") p.userId⟩
        ∈ (addTabIdentity s1 p).2) := by
  unfold addTabIdentity
  dsimp only
  rw [if_pos h]
  split
  · next hsock =>
    have hd := disconnectFn_preserves { s1 with
      currentBaseUrl := some p.url, currentUserId := some p.userId,
      currentToken := some p.token,
      currentUrl := some (buildUrl p.url p.userId p.token),
      config := some p.config,
      sharedWorkerIdleTimeout := p.sharedWorkerIdleTimeout.getD 30000,
      lastMessageByType := [] }
    refine ⟨hd.2.1, hd.2.2.2.1, hd.2.2.2.2.2.2.2, hd.2.2.2.2.2.1,
      hd.2.2.2.2.2.2.1, hd.2.2.2.2.1, ?_, ?_⟩
    · intro _
      apply List.mem_append_right
      rw [disconnectFn_acts]
      simp only [hsock, if_neg]
      · exact List.mem_singleton.mpr rfl
    · intro hex t ht
      apply List.mem_append_left
      rw [if_pos hex]
      exact broadcast_mem _ _ t ht
  · next hsock =>
    have hs : s1.socket = none := by
      by_contra hc
      exact hsock hc
    refine ⟨hs, rfl, rfl, rfl, rfl, rfl, ?_, ?_⟩
    · intro hne; exact absurd hs hne
    · intro hex t ht
      rw [if_pos hex]
      exact broadcast_mem _ _ t ht

/-- Outcome of the identity block when no identity existed: no conflict-type
action is produced (at most the upstream-close). -/
theorem addTabIdentity_acts_noident (s1 : HostState) (p : InitPayload)
    (h : ¬ hasExistingIdentity s1) :
    ∀ a ∈ (addTabIdentity s1 p).2, a = Action.closeUpstream := by
  unfold addTabIdentity
  dsimp only
  rw [if_pos (Or.inl h), if_neg h]
  split
  · intro a ha
    rw [List.nil_append, disconnectFn_acts] at ha
    split at ha
    · simp at ha
    · simpa using ha
  · intro a ha; simp at ha

end DJ.Worker

namespace DJ.Worker

open DJ

/-- Explicit decomposition of `addTab` into its sequential pieces. -/
theorem addTab_unfold (s : HostState) (tabId : String) (p : InitPayload)
    (now : Nat) :
    addTab s tabId p now =
      ((checkAllTabsVisibility
          (addTabIdentity { s with
            tabs := tabsSet s.tabs (freshTab tabId p.isVisible now),
            tabCleanupSet := true } p).1 now).1,
       (match s.currentUserId with
        | some u => if u ≠ p.userId then
            [Action.send ⟨tabId, .authConflict u p.userId⟩] else []
        | none => []) ++
       (addTabIdentity { s with
          tabs := tabsSet s.tabs (freshTab tabId p.isVisible now),
          tabCleanupSet := true } p).2 ++
       (if (addTabIdentity { s with
            tabs := tabsSet s.tabs (freshTab tabId p.isVisible now),
            tabCleanupSet := true } p).1.socket = some .openSt
        then [Action.send ⟨tabId, .connected⟩] else []) ++
       (checkAllTabsVisibility
          (addTabIdentity { s with
            tabs := tabsSet s.tabs (freshTab tabId p.isVisible now),
            tabCleanupSet := true } p).1 now).2) := rfl

end DJ.Worker

namespace DJ.Claims

open DJ DJ.Worker

/-- C1: a `TAB_INIT` whose (baseUrl, userId, credential) triple differs in any
component from the host's current identity makes the host broadcast
`WORKER_AUTH_CONFLICT` with the old and new user ids to every attached tab,
drop the current upstream (closing it when one was held; afterwards at most a
fresh CONNECTING socket for the new identity exists), clear
`lastMessageByType`, and adopt the new identity; with no current identity the
new identity is adopted and no conflict message of any kind is emitted. -/
theorem c1_identity_change_handling (s : HostState) (tabId : String)
    (p : InitPayload) (now : Nat) (b u k : String) :
    (s.currentBaseUrl = some b → s.currentUserId = some u →
     s.currentToken = some k → s.currentUrl = some (buildUrl b u k) →
     (b ≠ p.url ∨ u ≠ p.userId ∨ k ≠ p.token) →
      ((∀ t ∈ (addTab s tabId p now).1.tabs,
          Action.send ⟨t.tabId, .authConflict u p.userId⟩
            ∈ (addTab s tabId p now).2) ∧
       (addTab s tabId p now).1.lastMessageByType = [] ∧
       (addTab s tabId p now).1.currentBaseUrl = some p.url ∧
       (addTab s tabId p now).1.currentUserId = some p.userId ∧
       (addTab s tabId p now).1.currentToken = some p.token ∧
       (addTab s tabId p now).1.currentUrl =
         some (buildUrl p.url p.userId p.token) ∧
       (s.socket ≠ none →
         Action.closeUpstream ∈ (addTab s tabId p now).2) ∧
       ((addTab s tabId p now).1.socket = none ∨
        (addTab s tabId p now).1.socket = some .connecting))) ∧
    (s.currentBaseUrl = none → s.currentUserId = none →
     s.currentToken = none → s.currentUrl = none →
      ((addTab s tabId p now).1.currentBaseUrl = some p.url ∧
       (addTab s tabId p now).1.currentUserId = some p.userId ∧
       (addTab s tabId p now).1.currentToken = some p.token ∧
       (addTab s tabId p now).1.currentUrl =
         some (buildUrl p.url p.userId p.token) ∧
       (∀ a ∈ (addTab s tabId p now).2, ∀ d x y,
          a ≠ Action.send ⟨d, .authConflict x y⟩))) := by
  constructor
  · intro h1 h2 h3 h4 hdiff
    set s1 : HostState := { s with
      tabs := tabsSet s.tabs (freshTab tabId p.isVisible now),
      tabCleanupSet := true } with hs1
    have hex : hasExistingIdentity s1 := by
      left
      show s.currentBaseUrl ≠ none
      rw [h1]; exact Option.some_ne_none b
    have hch : identityChanged s1 p := by
      rcases hdiff with hd | hd | hd
      · left
        refine ⟨?_, ?_⟩
        · show s.currentBaseUrl ≠ none
          rw [h1]; exact Option.some_ne_none b
        · show s.currentBaseUrl ≠ some p.url
          rw [h1]
          exact fun hcontra => hd (Option.some.inj hcontra)
      · right; left
        refine ⟨?_, ?_⟩
        · show s.currentUserId ≠ none
          rw [h2]; exact Option.some_ne_none u
        · show s.currentUserId ≠ some p.userId
          rw [h2]
          exact fun hcontra => hd (Option.some.inj hcontra)
      · right; right; left
        refine ⟨?_, ?_⟩
        · show s.currentToken ≠ none
          rw [h3]; exact Option.some_ne_none k
        · show s.currentToken ≠ some p.token
          rw [h3]
          exact fun hcontra => hd (Option.some.inj hcontra)
    have hA := addTabIdentity_changed s1 p (Or.inr hch)
    have hgd : s1.currentUserId.getD "" = u := by
      show (s.currentUserId).getD "" = u
      rw [h2]; rfl
    have hCV := checkVis_preserves (addTabIdentity s1 p).1 now
    refine ⟨?_, ?_, ?_, ?_, ?_, ?_, ?_, ?_⟩
    · intro t ht
      rw [addTab_unfold] at ht ⊢
      have ht1 : t ∈ s1.tabs := by
        have := hCV.1 ▸ ht
        exact (addTabIdentity_tabs s1 p) ▸ this
      have hmem := hA.2.2.2.2.2.2.2 hex t ht1
      rw [hgd] at hmem
      exact List.mem_append.mpr (Or.inl (List.mem_append.mpr (Or.inl
        (List.mem_append.mpr (Or.inr hmem)))))
    · rw [addTab_unfold]
      exact hCV.2.2.1.trans hA.2.1
    · rw [addTab_unfold]
      exact hCV.2.2.2.2.2.2.trans hA.2.2.1
    · rw [addTab_unfold]
      exact hCV.2.2.2.2.1.trans hA.2.2.2.1
    · rw [addTab_unfold]
      exact hCV.2.2.2.2.2.1.trans hA.2.2.2.2.1
    · rw [addTab_unfold]
      exact hCV.2.2.2.1.trans hA.2.2.2.2.2.1
    · intro hsock
      rw [addTab_unfold]
      have hmem := hA.2.2.2.2.2.2.1 hsock
      exact List.mem_append.mpr (Or.inl (List.mem_append.mpr (Or.inl
        (List.mem_append.mpr (Or.inr hmem)))))
    · rw [addTab_unfold]
      rcases checkVis_socket (addTabIdentity s1 p).1 now with hc | hc
      · exact Or.inl (hc.trans hA.1)
      · exact Or.inr hc
  · intro h1 h2 h3 h4
    set s1 : HostState := { s with
      tabs := tabsSet s.tabs (freshTab tabId p.isVisible now),
      tabCleanupSet := true } with hs1
    have hno : ¬ hasExistingIdentity s1 := by
      intro hcontra
      rcases hcontra with hc | hc | hc | hc
      · exact hc h1
      · exact hc h2
      · exact hc h3
      · exact hc h4
    have hA := addTabIdentity_changed s1 p (Or.inl hno)
    have hCV := checkVis_preserves (addTabIdentity s1 p).1 now
    refine ⟨?_, ?_, ?_, ?_, ?_⟩
    · rw [addTab_unfold]
      exact hCV.2.2.2.2.2.2.trans hA.2.2.1
    · rw [addTab_unfold]
      exact hCV.2.2.2.2.1.trans hA.2.2.2.1
    · rw [addTab_unfold]
      exact hCV.2.2.2.2.2.1.trans hA.2.2.2.2.1
    · rw [addTab_unfold]
      exact hCV.2.2.2.1.trans hA.2.2.2.2.2.1
    · intro a ha d x y
      rw [addTab_unfold] at ha
      rcases List.mem_append.mp ha with ha | ha
      · rcases List.mem_append.mp ha with ha | ha
        · rcases List.mem_append.mp ha with ha | ha
          · rw [h2] at ha
            simp at ha
          · have := addTabIdentity_acts_noident s1 p hno a ha
            rw [this]
            intro hcontra
            cases hcontra
        · split at ha
          · have : a = Action.send ⟨tabId, .connected⟩ := by simpa using ha
            rw [this]
            intro hcontra
            injection hcontra with ho
            injection ho with hd hm
            cases hm
          · simp at ha
      · obtain ⟨url, hurl⟩ := checkVis_acts (addTabIdentity s1 p).1 now a ha
        rw [hurl]
        intro hcontra
        cases hcontra

/-- Witness for C1: a TAB_INIT for user u2 arriving while the host identity
is u1 triggers the conflict broadcast and identity switch; a TAB_INIT into a
fresh host adopts the identity silently. -/
theorem c1_witness :
    (Fixtures.exHostIdent.currentBaseUrl = some "ws://a" ∧
     (Fixtures.exHostIdent.socket = some SockState.openSt) ∧
     ("u1" ≠ Fixtures.exPayloadB.userId)) ∧
    ((addTab Fixtures.exHostIdent "tab2" Fixtures.exPayloadB
        10).1.lastMessageByType = [] ∧
     (addTab Fixtures.exHostIdent "tab2" Fixtures.exPayloadB
        10).1.currentUserId = some "u2" ∧
     Action.closeUpstream
       ∈ (addTab Fixtures.exHostIdent "tab2" Fixtures.exPayloadB 10).2) ∧
    (addTab initialHost "tab1" Fixtures.exPayloadA 5).1.currentUserId =
      some "u1" := by
  have h := (c1_identity_change_handling Fixtures.exHostIdent "tab2"
    Fixtures.exPayloadB 10 "ws://a" "u1" "t1").1 rfl rfl rfl rfl
    (Or.inr (Or.inl (by decide)))
  have h2 := (c1_identity_change_handling initialHost "tab1"
    Fixtures.exPayloadA 5 "x" "x" "x").2 rfl rfl rfl rfl
  refine ⟨⟨rfl, rfl, by decide⟩, ⟨h.2.1, h.2.2.2.1, ?_⟩, h2.2.1⟩
  exact h.2.2.2.2.2.2.1 (by simp [Fixtures.exHostIdent])

end DJ.Claims

namespace DJ

/-- Membership in `Set.add`. -/
theorem mem_setAdd (s : List String) (x y : String) :
    y ∈ setAdd s x ↔ y ∈ s ∨ y = x := by
  unfold setAdd
  by_cases h : x ∈ s
  · rw [if_pos h]
    constructor
    · exact Or.inl
    · rintro (hy | rfl)
      · exact hy
      · exact h
  · rw [if_neg h]
    simp

/-- Membership in `Set.delete`. -/
theorem mem_setDelete (s : List String) (x y : String) :
    y ∈ setDelete s x ↔ y ∈ s ∧ ¬ (y = x) := by
  unfold setDelete
  simp

/-- `Map.set` with a key absent from the map appends the new entry. -/
theorem mapSet_fresh {α : Type} (m : List (String × α)) (k : String) (v : α)
    (h : ∀ p ∈ m, ¬ (p.1 = k)) : mapSet m k v = m ++ [(k, v)] := by
  unfold mapSet
  rw [if_neg]
  intro hc
  obtain ⟨p, hp, hpk⟩ := List.any_eq_true.mp hc
  exact h p hp (by simpa using hpk)

/-- Membership in `Map.delete`. -/
theorem mem_mapDelete {α : Type} (m : List (String × α)) (k : String)
    (p : String × α) : p ∈ mapDelete m k ↔ p ∈ m ∧ ¬ (p.1 = k) := by
  unfold mapDelete
  simp

/-- In a map with pairwise-distinct keys, `Map.get` finds the value of any
member entry. -/
theorem mapGet_of_mem_nodup {α : Type} (m : List (String × α)) (k : String)
    (w : α) (hnd : (m.map Prod.fst).Nodup) (hm : (k, w) ∈ m) :
    mapGet m k = some w := by
  induction m with
  | nil => simp at hm
  | cons p m ih =>
    rcases List.mem_cons.mp hm with rfl | hm2
    · exact mapGet_cons_eq _ _ _ rfl
    · have hpk : ¬ (p.1 = k) := by
        intro hpk
        have hkm : k ∈ m.map Prod.fst :=
          List.mem_map.mpr ⟨(k, w), hm2, rfl⟩
        rw [List.map_cons, List.nodup_cons] at hnd
        exact hnd.1 (hpk ▸ hkm)
      rw [mapGet_cons_ne _ _ _ hpk]
      rw [List.map_cons, List.nodup_cons] at hnd
      exact ih hnd.2 hm2

end DJ

namespace DJ.Worker

open DJ

/-- Keys of a filtered map are pairwise distinct when the original keys
are. -/
theorem keysNodup_filter (m : List (String × String))
    (pred : String × String → Bool) (hnd : (m.map Prod.fst).Nodup) :
    ((m.filter pred).map Prod.fst).Nodup :=
  List.Sublist.nodup (List.Sublist.map Prod.fst (List.filter_sublist m)) hnd

/-- The remove-all branch of `unregisterCallback` preserves the invariant. -/
theorem unregAll_case (t : TabInfo) (ty : String) (now : Nat)
    (hInv : SubInv t) (hnd : KeysNodup t) :
    SubInv (tabUnregisterAll t ty now) ∧
    KeysNodup (tabUnregisterAll t ty now) := by
  obtain ⟨hI1, hI2⟩ := hInv
  refine ⟨⟨?_, ?_⟩, ?_⟩
  · intro p hp
    show p.2 ∈ setDelete t.registeredTypes ty
    have hp2 := List.mem_filter.mp hp
    refine (mem_setDelete _ _ _).mpr ⟨hI1 p hp2.1, by simpa using hp2.2⟩
  · intro ty2 hty2
    have h2 := (mem_setDelete _ _ _).mp hty2
    obtain ⟨p, hp, hpt⟩ := hI2 ty2 h2.1
    refine ⟨p, List.mem_filter.mpr ⟨hp, ?_⟩, hpt⟩
    simp only [decide_eq_true_eq, decide_not]
    simpa [hpt] using h2.2
  · exact keysNodup_filter _ _ hnd

/-- The single-callback branch of `unregisterCallback` preserves the
invariant. -/
theorem unregOne_case (t : TabInfo) (c : String) (now : Nat)
    (hInv : SubInv t) (hnd : KeysNodup t) :
    SubInv (tabUnregisterOne t c now) ∧
    KeysNodup (tabUnregisterOne t c now) := by
  obtain ⟨hI1, hI2⟩ := hInv
  unfold tabUnregisterOne
  dsimp only
  cases hget : mapGet t.callbackMap c with
  | none => exact ⟨⟨hI1, hI2⟩, hnd⟩
  | some ty =>
    dsimp only
    by_cases hty : ty = ""
    · rw [if_pos hty]
      exact ⟨⟨hI1, hI2⟩, hnd⟩
    · rw [if_neg hty]
      have hval : ∀ w, (c, w) ∈ t.callbackMap → w = ty := by
        intro w hw
        have := mapGet_of_mem_nodup t.callbackMap c w hnd hw
        rw [hget] at this
        exact (Option.some.inj this).symm
      by_cases hOther :
          (mapDelete t.callbackMap c).any (fun p => p.2 = ty)
      · rw [if_pos hOther]
        refine ⟨⟨?_, ?_⟩, ?_⟩
        · intro p hp
          exact hI1 p ((mem_mapDelete _ _ _).mp hp).1
        · intro ty2 hty2
          obtain ⟨p0, hp0, hpt⟩ := hI2 ty2 hty2
          by_cases hpc : p0.1 = c
          · have hp0ty : p0.2 = ty := by
              apply hval
              rw [← hpc]
              exact hp0
            obtain ⟨q, hq, hqt⟩ := List.any_eq_true.mp hOther
            refine ⟨q, hq, ?_⟩
            have : q.2 = ty := by simpa using hqt
            rw [this, ← hp0ty, hpt]
          · exact ⟨p0, (mem_mapDelete _ _ _).mpr ⟨hp0, hpc⟩, hpt⟩
        · exact keysNodup_filter _ _ hnd
      · rw [if_neg hOther]
        refine ⟨⟨?_, ?_⟩, ?_⟩
        · intro p hp
          show p.2 ∈ setDelete t.registeredTypes ty
          have hp2 := (mem_mapDelete _ _ _).mp hp
          refine (mem_setDelete _ _ _).mpr ⟨hI1 p hp2.1, ?_⟩
          intro hpt
          apply hOther
          exact List.any_eq_true.mpr ⟨p, hp, by simpa using hpt⟩
        · intro ty2 hty2
          have h2 := (mem_setDelete _ _ _).mp hty2
          obtain ⟨p0, hp0, hpt⟩ := hI2 ty2 h2.1
          by_cases hpc : p0.1 = c
          · exfalso
            apply h2.2
            rw [← hpt]
            apply hval
            rw [← hpc]
            exact hp0
          · exact ⟨p0, (mem_mapDelete _ _ _).mpr ⟨hp0, hpc⟩, hpt⟩
        · exact keysNodup_filter _ _ hnd

/-- The register branch of `registerCallback` preserves the invariant when
the callbackId is fresh. -/
theorem reg_case (t : TabInfo) (ty cid : String) (now : Nat)
    (hInv : SubInv t) (hnd : KeysNodup t)
    (hf : ∀ p ∈ t.callbackMap, ¬ (p.1 = cid)) :
    SubInv (tabRegister t ty cid now) ∧
    KeysNodup (tabRegister t ty cid now) := by
  obtain ⟨hI1, hI2⟩ := hInv
  have hcm : (tabRegister t ty cid now).callbackMap =
      t.callbackMap ++ [(cid, ty)] := by
    show mapSet t.callbackMap cid ty = _
    exact mapSet_fresh _ _ _ hf
  refine ⟨⟨?_, ?_⟩, ?_⟩
  · intro p hp
    rw [hcm] at hp
    show p.2 ∈ setAdd t.registeredTypes ty
    rcases List.mem_append.mp hp with hp | hp
    · exact (mem_setAdd _ _ _).mpr (Or.inl (hI1 p hp))
    · have : p = (cid, ty) := by simpa using hp
      rw [this]
      exact (mem_setAdd _ _ _).mpr (Or.inr rfl)
  · intro ty2 hty2
    rw [hcm]
    rcases (mem_setAdd _ _ _).mp hty2 with h | rfl
    · obtain ⟨p, hp, hpt⟩ := hI2 ty2 h
      exact ⟨p, List.mem_append_left _ hp, hpt⟩
    · exact ⟨(cid, ty2), List.mem_append_right _ (by simp), rfl⟩
  · show ((tabRegister t ty cid now).callbackMap.map Prod.fst).Nodup
    rw [hcm, List.map_append, List.nodup_append]
    refine ⟨hnd, by simp, ?_⟩
    intro k hk
    simp only [List.map_cons, List.map_nil, List.mem_singleton]
    intro hkc
    obtain ⟨p, hp, hpk⟩ := List.mem_map.mp hk
    exact hf p hp (by rw [hpk, hkc])

/-- One valid subscription operation preserves the invariant and key
uniqueness. -/
theorem subInv_step (t : TabInfo) (op : SubOp) (hInv : SubInv t)
    (hnd : KeysNodup t)
    (hfresh : ∀ ty cid now, op = .register ty cid now →
      ∀ p ∈ t.callbackMap, ¬ (p.1 = cid)) :
    SubInv (applySubOp t op) ∧ KeysNodup (applySubOp t op) := by
  match op with
  | .register ty cid now =>
    exact reg_case t ty cid now hInv hnd (hfresh ty cid now rfl)
  | .unregister ty (some c) now =>
    by_cases hc : c = ""
    · simpa [applySubOp, hc] using unregAll_case t ty now hInv hnd
    · simpa [applySubOp, hc] using unregOne_case t c now hInv hnd
  | .unregister ty none now =>
    simpa [applySubOp] using unregAll_case t ty now hInv hnd

/-- A valid operation sequence preserves the invariant and key
uniqueness. -/
theorem subInv_preserved (ops : List SubOp) (t : TabInfo) (hInv : SubInv t)
    (hnd : KeysNodup t) (hv : ValidOps t ops) :
    SubInv (applySubOps t ops) ∧ KeysNodup (applySubOps t ops) := by
  induction hv with
  | nil t => exact ⟨hInv, hnd⟩
  | reg hfresh hrest ih =>
    rename_i t2 ty cid now ops2
    have hstep := subInv_step t2 (.register ty cid now) hInv hnd
      (by intro ty2 cid2 now2 heq p hp
          injection heq with h1 h2 h3
          rw [← h2]
          exact hfresh p hp)
    exact ih hstep.1 hstep.2
  | unreg hrest ih =>
    rename_i t2 ty cid now ops2
    have hstep := subInv_step t2 (.unregister ty cid now) hInv hnd
      (by intro ty2 cid2 now2 heq; cases heq)
    exact ih hstep.1 hstep.2

end DJ.Worker

namespace DJ.Claims

open DJ DJ.Worker

/-- C5: starting from the fresh record `addTab` creates, every state of a
tab's subscription data reachable by register/unregister operations whose
callbackIds are unique within the tab satisfies the invariant: every value of
`callbackMap` is in `registeredTypes`, and `registeredTypes` contains exactly
the types with at least one registered callback. -/
theorem c5_subscription_invariant (tabId : String) (vis : Bool)
    (now0 : Nat) (ops : List SubOp)
    (hv : ValidOps (freshTab tabId vis now0) ops) :
    SubInv (applySubOps (freshTab tabId vis now0) ops) :=
  (subInv_preserved ops (freshTab tabId vis now0)
    ⟨fun p hp => by simp [freshTab] at hp,
     fun ty hty => by simp [freshTab] at hty⟩
    (by simp [KeysNodup, freshTab]) hv).1

/-- Witness for C5 on a concrete operation sequence (register two callbacks
for A, remove one by id, register one for B, remove all of B). -/
theorem c5_witness :
    ValidOps (freshTab "tab1" true 0)
      [.register "A" "c1" 1, .register "A" "c2" 2,
       .unregister "A" (some "c1") 3, .register "B" "c3" 4,
       .unregister "B" none 5] ∧
    SubInv (applySubOps (freshTab "tab1" true 0)
      [.register "A" "c1" 1, .register "A" "c2" 2,
       .unregister "A" (some "c1") 3, .register "B" "c3" 4,
       .unregister "B" none 5]) := by
  have hv : ValidOps (freshTab "tab1" true 0)
      [.register "A" "c1" 1, .register "A" "c2" 2,
       .unregister "A" (some "c1") 3, .register "B" "c3" 4,
       .unregister "B" none 5] := by
    apply ValidOps.reg (by decide)
    apply ValidOps.reg (by decide)
    apply ValidOps.unreg
    apply ValidOps.reg (by decide)
    apply ValidOps.unreg
    exact ValidOps.nil _
  exact ⟨hv, c5_subscription_invariant "tab1" true 0 _ hv⟩

end DJ.Claims

namespace DJ.Facade

open DJ

/-- `stop` keeps the allocation counter. -/
theorem stopF_alloc (s : FState) : (stopF s).1.allocCounter = s.allocCounter := by
  unfold stopF
  dsimp only
  cases s.client <;> cases s.workerManager <;>
    by_cases h : s.visibilityListenerInitialized <;> simp [h]

end DJ.Facade

namespace DJ.Claims

open DJ DJ.Facade

/-- Counterexample to C6: with a connected shared-mode session for identity
(u, t), a second `start` with the same identity stops the existing worker
session (session 0) and creates a brand-new one (session 1) — it is not a
no-op in sharedWorker mode. -/
theorem c6_counterexample :
    Facade.isConnectedF Fixtures.exFacade2 = true ∧
    Fixtures.exFacade2.currentUserId = some "u" ∧
    Fixtures.exFacade2.currentToken = some "t" ∧
    Fixtures.exFacade2.currentMode = Mode.sharedWorker ∧
    FAction.workerCreate 1 ∈
      (Facade.startF Fixtures.exFacade2 "u" "t" Fixtures.exEnv true).2 ∧
    FAction.workerStop 0 ∈
      (Facade.startF Fixtures.exFacade2 "u" "t" Fixtures.exEnv true).2 := by
  refine ⟨by decide, by decide, by decide, by decide, by decide, by decide⟩

/-- C6 amended: a second `start` with the same identity while the client is
connected is a no-op (beyond recomputing the mode) in visibility and normal
modes; in sharedWorker mode every `start` allocates a new shared-worker
session even for an unchanged identity. -/
theorem c6_start_reuse_by_mode (s : FState) (userId token : String)
    (env : RtEnv) (ok : Bool) (c : WSC.ClientS)
    (hurl : ¬ (s.config.url = "")) (huid : ¬ (userId = ""))
    (htok : ¬ (token = "")) :
    ((determineConnectionMode s.config env = .visibility →
      s.client = some c → WSC.isConnected c = true →
      s.currentUserId = some userId → s.currentToken = some token →
      Facade.startF s userId token env ok =
        ({ s with currentMode := .visibility }, []))) ∧
    ((determineConnectionMode s.config env = .normal →
      s.client = some c → WSC.isConnected c = true →
      s.currentUserId = some userId → s.currentToken = some token →
      Facade.startF s userId token env ok =
        ({ s with currentMode := .normal }, []))) ∧
    ((determineConnectionMode s.config env = .sharedWorker →
      FAction.workerCreate s.allocCounter ∈
        (Facade.startF s userId token env ok).2)) := by
  have hids : ¬ (userId = "" ∨ token = "") := by
    rintro (h | h)
    · exact huid h
    · exact htok h
  refine ⟨?_, ?_, ?_⟩
  · intro hmode hc hconn hu ht
    unfold startF
    rw [if_neg hurl, if_neg hids, hmode]
    unfold startWithVisibility
    dsimp only
    rw [if_pos]
    show (match ({ s with currentMode := Mode.visibility } : FState).client
        with
      | some c => WSC.isConnected c && s.currentUserId == some userId &&
                  s.currentToken == some token
      | none => false) = true
    show (match s.client with
      | some c => WSC.isConnected c && s.currentUserId == some userId &&
                  s.currentToken == some token
      | none => false) = true
    rw [hc]
    simp [hconn, hu, ht]
  · intro hmode hc hconn hu ht
    unfold startF
    rw [if_neg hurl, if_neg hids, hmode]
    unfold startWithNormalMode
    dsimp only
    rw [if_pos]
    show (match s.client with
      | some c => WSC.isConnected c && s.currentUserId == some userId &&
                  s.currentToken == some token
      | none => false) = true
    rw [hc]
    simp [hconn, hu, ht]
  · intro hmode
    unfold startF
    rw [if_neg hurl, if_neg hids, hmode]
    unfold startWithSharedWorker
    dsimp only
    have halloc : (stopF { s with currentMode :=
        Mode.sharedWorker }).1.allocCounter = s.allocCounter :=
      stopF_alloc _
    split
    · apply List.mem_append_left
      apply List.mem_append_right
      rw [halloc]
      exact List.mem_singleton.mpr rfl
    · apply List.mem_append_left
      apply List.mem_append_right
      rw [halloc]
      exact List.mem_singleton.mpr rfl

/-- Witness for the amended C6 statement: visibility-mode reuse is a no-op
and shared mode allocates a session. -/
theorem c6_witness :
    (¬ (Fixtures.exFCfg.url = "") ∧
     determineConnectionMode Fixtures.exFCfg ⟨false, true⟩ = Mode.normal) ∧
    Facade.startF { Fixtures.exFacadeShared with
        client := some { Fixtures.exClient with socket := some .openSt },
        workerManager := none, currentMode := Mode.normal }
      "u" "t" ⟨false, true⟩ true =
      ({ Fixtures.exFacadeShared with
          client := some { Fixtures.exClient with socket := some .openSt },
          workerManager := none, currentMode := Mode.normal }, []) ∧
    FAction.workerCreate 0 ∈
      (Facade.startF Fixtures.exFacade0 "u" "t" Fixtures.exEnv true).2 := by
  have h := c6_start_reuse_by_mode { Fixtures.exFacadeShared with
      client := some { Fixtures.exClient with socket := some .openSt },
      workerManager := none, currentMode := Mode.normal }
    "u" "t" ⟨false, true⟩ true
    { Fixtures.exClient with socket := some .openSt }
    (by decide) (by decide) (by decide)
  have h2 := c6_start_reuse_by_mode Fixtures.exFacade0 "u" "t"
    Fixtures.exEnv true Fixtures.exClient (by decide) (by decide) (by decide)
  refine ⟨⟨by decide, by decide⟩, ?_, ?_⟩
  · exact h.2.1 (by decide) rfl (by decide) rfl rfl
  · exact h2.2.2 (by decide)
end DJ.Claims

namespace DJ.Worker

open DJ

/-- `LiveOk` is monotone in time. -/
theorem liveOk_mono {s : HostState} {t t2 : Nat} (h : LiveOk s t)
    (ht : t ≤ t2) : LiveOk s t2 :=
  fun hlive => le_trans (h hlive) ht

/-- A visible tab means the tab table is non-empty. -/
theorem hasVisible_ne_nil (s : HostState) (h : hasVisibleTab s = true) :
    s.tabs ≠ [] := by
  intro hnil
  unfold hasVisibleTab at h
  rw [hnil] at h
  simp at h

/-- `hasVisibleTab` depends only on the tab table. -/
theorem hasVisible_congr {s1 s2 : HostState} (h : s1.tabs = s2.tabs) :
    hasVisibleTab s1 = hasVisibleTab s2 := by
  unfold hasVisibleTab
  rw [h]

/-- `connect` preserves `LiveOk`. -/
theorem connectFn_liveOk (s : HostState) (now : Nat) (f : Bool)
    (h : LiveOk s now) : LiveOk (connectFn s now f).1 now := by
  unfold connectFn
  cases s.currentUrl with
  | none => exact h
  | some u =>
    dsimp only
    split
    · exact h
    · next hsup =>
      split
      · exact h
      · split
        · exact h
        · split
          · split
            · intro hlive
              have hp := scheduleReconnect_preserves
                { s with manualClose := false, reconnectTimerSet := false,
                         currentUrl := some u }
              rw [hp.2.1] at hlive
              rw [hp.2.2.1]
              exact h hlive
            · exact h
          · intro _
            show s.reconnectSuppressedUntil ≤ now
            omega

/-- `checkAllTabsVisibility` preserves `LiveOk`. -/
theorem checkVis_liveOk (s : HostState) (now : Nat) (h : LiveOk s now) :
    LiveOk (checkAllTabsVisibility s now).1 now := by
  unfold checkAllTabsVisibility
  dsimp only
  split
  · exact h
  · split
    · exact h
    · split
      · split
        · exact connectFn_liveOk { s with idleTimerSet := false } now false h
        · exact h
      · exact h

/-- The identity block of `addTab` preserves `LiveOk`. -/
theorem addTabIdentity_liveOk (s1 : HostState) (p : InitPayload) (now : Nat)
    (h : LiveOk s1 now) : LiveOk (addTabIdentity s1 p).1 now := by
  unfold addTabIdentity
  dsimp only
  split
  · split
    · intro hlive
      rcases hlive with hl | hl <;>
        · rw [(disconnectFn_preserves _).2.1] at hl
          cases hl
    · exact h
  · exact h

/-- `handleClose` leaves the socket CLOSED. -/
theorem handleClose_socket (s : HostState) (code now : Nat) :
    (handleClose s code now).1.socket = some .closed := by
  unfold handleClose
  dsimp only
  repeat' split
  all_goals first
    | rfl
    | exact closeCommon_socket _ _

/-- `forceReset` drops the socket. -/
theorem forceReset_socket (s : HostState) :
    (forceReset s).1.socket = none :=
  (disconnectFn_preserves s).2.1

/-- `forceShutdown` drops the socket. -/
theorem forceShutdown_socket (s : HostState) :
    (forceShutdown s).1.socket = none :=
  (disconnectFn_preserves s).2.1

end DJ.Worker

namespace DJ.Worker

open DJ

/-- `removeTab` preserves `LiveOk`. -/
theorem removeTab_liveOk (s : HostState) (id : String) (now : Nat)
    (h : LiveOk s now) : LiveOk (removeTab s id now).1 now := by
  unfold removeTab
  dsimp only
  split
  · exact h
  · exact checkVis_liveOk _ now h

/-- `updateTabVisibility` preserves `LiveOk`. -/
theorem updateTabVisibility_liveOk (s : HostState) (id : String) (v : Bool)
    (now : Nat) (h : LiveOk s now) :
    LiveOk (updateTabVisibility s id v now).1 now := by
  unfold updateTabVisibility
  split
  · exact h
  · exact checkVis_liveOk _ now h

/-- `registerCallback` preserves `LiveOk`. -/
theorem registerCallback_liveOk (s : HostState) (id ty cid : String)
    (now : Nat) (h : LiveOk s now) :
    LiveOk (registerCallback s id ty cid now).1 now := by
  unfold registerCallback
  split
  · exact h
  · dsimp only
    split
    · exact h
    · exact h

/-- `unregisterCallback` preserves `LiveOk`. -/
theorem unregisterCallback_liveOk (s : HostState) (id ty : String)
    (cid : Option String) (now : Nat) (h : LiveOk s now) :
    LiveOk (unregisterCallback s id ty cid now).1 now := by
  unfold unregisterCallback
  split
  · exact h
  · exact h

/-- `handleIncoming` preserves `LiveOk`. -/
theorem handleIncoming_liveOk (s : HostState) (f : Frame) (now : Nat)
    (h : LiveOk s now) : LiveOk (handleIncoming s f).1 now := by
  unfold handleIncoming
  match f with
  | .malformed raw => exact h
  | .wellFormed raw env =>
    dsimp only
    split
    · exact h
    · split
      · exact h
      · exact h

/-- `send` preserves `LiveOk`. -/
theorem sendFn_liveOk (s : HostState) (d : String) (now : Nat)
    (h : LiveOk s now) : LiveOk (sendFn s d).1 now := by
  unfold sendFn
  split
  · exact h
  · exact h

/-- A heartbeat tick preserves `LiveOk`. -/
theorem heartbeatTick_liveOk (s : HostState) (now : Nat)
    (h : LiveOk s now) : LiveOk (heartbeatTick s).1 now := by
  unfold heartbeatTick
  split
  · exact h
  · exact h

/-- `handleNetworkOnline` preserves `LiveOk` (it zeroes the suppression
deadline before reconnecting). -/
theorem handleNetworkOnline_liveOk (s : HostState) (now : Nat)
    (h : LiveOk s now) : LiveOk (handleNetworkOnline s now).1 now := by
  unfold handleNetworkOnline
  dsimp only
  split
  · exact h
  · split
    · refine connectFn_liveOk _ now false ?_
      intro _
      exact Nat.zero_le now
    · intro _
      exact Nat.zero_le now

/-- Per-event preservation of `LiveOk`. -/
theorem liveOk_step (s : HostState) (e : WEvent) (T now : Nat)
    (h : LiveOk s T) (ht : T ≤ now) (hv : ValidEvent s e now) :
    LiveOk (stepHost s e now).1 now := by
  have h2 : LiveOk s now := liveOk_mono h ht
  match e with
  | .tabInit id p =>
    show LiveOk (addTab (refreshLastSeen s id now) id p now).1 now
    rw [addTab_unfold]
    exact checkVis_liveOk _ now (addTabIdentity_liveOk _ p now h2)
  | .tabSend id d => exact sendFn_liveOk _ d now h2
  | .tabVisibility id v => exact updateTabVisibility_liveOk _ id v now h2
  | .tabRegister id ty cid => exact registerCallback_liveOk _ id ty cid now h2
  | .tabUnregister id ty cid =>
    exact unregisterCallback_liveOk _ id ty cid now h2
  | .tabDisconnect id => exact removeTab_liveOk _ id now h2
  | .tabPing id => exact h2
  | .tabForceReset id =>
    show LiveOk (forceReset (refreshLastSeen s id now)).1 now
    intro hl
    rw [forceReset_socket] at hl
    rcases hl with hl | hl <;> cases hl
  | .tabForceShutdown id =>
    show LiveOk (forceShutdown (refreshLastSeen s id now)).1 now
    intro hl
    rw [forceShutdown_socket] at hl
    rcases hl with hl | hl <;> cases hl
  | .tabNetworkOnline id => exact handleNetworkOnline_liveOk _ now h2
  | .socketOpen =>
    intro _
    exact h2 (Or.inl hv)
  | .socketClose code =>
    show LiveOk (handleClose s code now).1 now
    intro hl
    rw [handleClose_socket] at hl
    rcases hl with hl | hl <;> cases hl
  | .socketError => exact h2
  | .serverFrame f => exact handleIncoming_liveOk _ f now h2
  | .reconnectTimerFire cf => exact connectFn_liveOk _ now cf h2
  | .idleTimerFire =>
    show LiveOk (disconnectFn { s with idleTimerSet := false }).1 now
    intro hl
    rw [(disconnectFn_preserves _).2.1] at hl
    rcases hl with hl | hl <;> cases hl
  | .heartbeatTimerFire => exact heartbeatTick_liveOk _ now h2
  | .reapTab id => exact removeTab_liveOk _ id now h2

/-- Every reachable state satisfies `LiveOk` at its reach time. -/
theorem reach_liveOk {s : HostState} {T : Nat} (h : Reach s T) :
    LiveOk s T := by
  induction h with
  | init =>
    intro hl
    rcases hl with hl | hl <;> cases hl
  | step hr hle hv ih => exact liveOk_step _ _ _ _ ih hle hv

end DJ.Worker

namespace DJ.Worker

open DJ

/-- Broadcast lists contain only port sends. -/
theorem broadcast_shape (tabs : List TabInfo) (m : WMsg) (a : Action)
    (ha : a ∈ broadcast tabs m) : ∃ o, a = Action.send o := by
  obtain ⟨t, _, ht⟩ := List.mem_map.mp ha
  exact ⟨⟨t.tabId, m⟩, ht.symm⟩

/-- If `scheduleReconnect` emitted anything, its guard held: tabs non-empty
and one of them visible. -/
theorem scheduleReconnect_sound (s : HostState) (a : Action)
    (ha : a ∈ (scheduleReconnect s).2) :
    s.tabs ≠ [] ∧ hasVisibleTab s = true := by
  unfold scheduleReconnect at ha
  dsimp only at ha
  split at ha
  · simp at ha
  · next hguard =>
    rw [Bool.or_eq_true] at hguard
    push_neg at hguard
    obtain ⟨h1, h2⟩ := hguard
    refine ⟨?_, ?_⟩
    · intro hnil
      exact h1 (by rw [hnil]; rfl)
    · by_contra hcv
      exact h2 (by simp [hcv])

/-- If `connect` opened a transport or scheduled a reconnect, its guards
held: tabs non-empty, a visible tab, and the suppression deadline passed. -/
theorem connectFn_sound (s : HostState) (now : Nat) (f : Bool) (a : Action)
    (ha : a ∈ (connectFn s now f).2) (hc : isConnAct a = true) :
    s.tabs ≠ [] ∧ hasVisibleTab s = true ∧
    s.reconnectSuppressedUntil ≤ now := by
  unfold connectFn at ha
  revert ha
  cases s.currentUrl with
  | none => intro ha; simp at ha
  | some u =>
    dsimp only
    split
    · intro ha; simp at ha
    · next hsup =>
      split
      · intro ha; simp at ha
      · next hvis =>
        have hvis2 : hasVisibleTab s = true := not_not.mp hvis
        split
        · intro ha; simp at ha
        · split
          · split
            · intro ha
              rcases List.mem_append.mp ha with ha | ha
              · obtain ⟨o, rfl⟩ := broadcast_shape _ _ _ ha
                simp [isConnAct] at hc
              · have hs := scheduleReconnect_sound _ a ha
                exact ⟨hasVisible_ne_nil s hvis2, hvis2, by omega⟩
            · intro ha
              obtain ⟨o, rfl⟩ := broadcast_shape _ _ _ ha
              simp [isConnAct] at hc
          · intro ha
            exact ⟨hasVisible_ne_nil s hvis2, hvis2, by omega⟩

/-- If `checkAllTabsVisibility` opened a transport or scheduled a reconnect,
the reconnect-gating condition held. -/
theorem checkVis_sound (s : HostState) (now : Nat) (a : Action)
    (ha : a ∈ (checkAllTabsVisibility s now).2) (hc : isConnAct a = true) :
    s.tabs ≠ [] ∧ hasVisibleTab s = true ∧
    s.reconnectSuppressedUntil ≤ now := by
  unfold checkAllTabsVisibility at ha
  dsimp only at ha
  split at ha
  · simp at ha
  · split at ha
    · simp at ha
    · split at ha
      · split at ha
        · exact connectFn_sound { s with idleTimerSet := false } now false
            a ha hc
        · simp at ha
      · simp at ha

/-- Gating conclusion transferred to the state `connect` returns. -/
theorem connectFn_goal (s : HostState) (now : Nat) (f : Bool) (a : Action)
    (ha : a ∈ (connectFn s now f).2) (hc : isConnAct a = true) :
    (connectFn s now f).1.tabs ≠ [] ∧
    hasVisibleTab (connectFn s now f).1 = true ∧
    (connectFn s now f).1.reconnectSuppressedUntil ≤ now := by
  have hs := connectFn_sound s now f a ha hc
  have hp := connectFn_preserves s now f
  refine ⟨?_, ?_, ?_⟩
  · rw [hp.1]; exact hs.1
  · rw [hasVisible_congr hp.1]; exact hs.2.1
  · rw [hp.2.1]; exact hs.2.2

/-- Gating conclusion transferred to the state `checkAllTabsVisibility`
returns. -/
theorem checkVis_goal (s : HostState) (now : Nat) (a : Action)
    (ha : a ∈ (checkAllTabsVisibility s now).2) (hc : isConnAct a = true) :
    (checkAllTabsVisibility s now).1.tabs ≠ [] ∧
    hasVisibleTab (checkAllTabsVisibility s now).1 = true ∧
    (checkAllTabsVisibility s now).1.reconnectSuppressedUntil ≤ now := by
  have hs := checkVis_sound s now a ha hc
  have hp := checkVis_preserves s now
  refine ⟨?_, ?_, ?_⟩
  · rw [hp.1]; exact hs.1
  · rw [hasVisible_congr hp.1]; exact hs.2.1
  · rw [hp.2.1]; exact hs.2.2

end DJ.Worker

namespace DJ.Worker

open DJ

/-- `registerCallback` emits only port sends. -/
theorem registerCallback_noConn (s : HostState) (id ty cid : String)
    (now : Nat) : ∀ a ∈ (registerCallback s id ty cid now).2,
      isConnAct a = false := by
  unfold registerCallback
  split
  · intro a ha; simp at ha
  · dsimp only
    split
    · intro a ha
      rw [List.mem_singleton.mp ha]
      rfl
    · intro a ha; simp at ha

/-- `unregisterCallback` emits nothing. -/
theorem unregisterCallback_noConn (s : HostState) (id ty : String)
    (cid : Option String) (now : Nat) :
    ∀ a ∈ (unregisterCallback s id ty cid now).2, isConnAct a = false := by
  unfold unregisterCallback
  split
  · intro a ha; simp at ha
  · intro a ha; simp at ha

/-- `handleIncoming` emits only port sends. -/
theorem handleIncoming_noConn (s : HostState) (f : Frame) :
    ∀ a ∈ (handleIncoming s f).2, isConnAct a = false := by
  unfold handleIncoming
  match f with
  | .malformed raw => intro a ha; simp at ha
  | .wellFormed raw env =>
    dsimp only
    split
    · intro a ha; simp at ha
    · split
      · intro a ha; simp at ha
      · intro a ha
        obtain ⟨t, _, ht⟩ := List.mem_map.mp ha
        rw [← ht]; rfl

/-- `send` emits only an upstream frame. -/
theorem sendFn_noConn (s : HostState) (d : String) :
    ∀ a ∈ (sendFn s d).2, isConnAct a = false := by
  unfold sendFn
  split
  · intro a ha
    have : a = Action.sendUpstream d := by simpa using ha
    rw [this]; rfl
  · intro a ha; simp at ha

/-- A heartbeat tick emits only an upstream frame. -/
theorem heartbeatTick_noConn (s : HostState) :
    ∀ a ∈ (heartbeatTick s).2, isConnAct a = false := by
  unfold heartbeatTick
  split
  · intro a ha
    have : a = Action.sendUpstream "PING" := by simpa using ha
    rw [this]; rfl
  · intro a ha; simp at ha

/-- `disconnect` emits at most the upstream close. -/
theorem disconnectFn_noConn (s : HostState) :
    ∀ a ∈ (disconnectFn s).2, isConnAct a = false := by
  intro a ha
  rw [disconnectFn_acts] at ha
  split at ha
  · simp at ha
  · have : a = Action.closeUpstream := by simpa using ha
    rw [this]; rfl

/-- `forceReset` emits only close and send actions. -/
theorem forceReset_noConn (s : HostState) :
    ∀ a ∈ (forceReset s).2, isConnAct a = false := by
  unfold forceReset
  dsimp only
  intro a ha
  rcases List.mem_append.mp ha with ha | ha
  · exact disconnectFn_noConn s a ha
  · obtain ⟨o, rfl⟩ := broadcast_shape _ _ _ ha
    rfl

/-- `forceShutdown` emits only close, send and port-close actions. -/
theorem forceShutdown_noConn (s : HostState) :
    ∀ a ∈ (forceShutdown s).2, isConnAct a = false := by
  unfold forceShutdown
  dsimp only
  intro a ha
  rcases List.mem_append.mp ha with ha | ha
  · exact disconnectFn_noConn s a ha
  · obtain ⟨t, _, ha2⟩ := List.mem_flatMap.mp ha
    rcases List.mem_cons.mp ha2 with rfl | ht3
    · rfl
    · rw [List.mem_singleton.mp ht3]
      rfl

/-- `handleOpen` emits only port sends. -/
theorem handleOpen_noConn (s : HostState) (now : Nat) :
    ∀ a ∈ (handleOpen s now).2, isConnAct a = false := by
  intro a ha
  obtain ⟨o, rfl⟩ := broadcast_shape _ _ _ ha
  rfl

/-- `handleError` emits only port sends. -/
theorem handleError_noConn (s : HostState) :
    ∀ a ∈ (handleError s).2, isConnAct a = false := by
  intro a ha
  obtain ⟨o, rfl⟩ := broadcast_shape _ _ _ ha
  rfl

/-- The identity block of `addTab` emits only send and close actions. -/
theorem addTabIdentity_noConn (s1 : HostState) (p : InitPayload) :
    ∀ a ∈ (addTabIdentity s1 p).2, isConnAct a = false := by
  unfold addTabIdentity
  dsimp only
  split
  · intro a ha
    split at ha
    · rcases List.mem_append.mp ha with ha | ha
      · split at ha
        · obtain ⟨o, rfl⟩ := broadcast_shape _ _ _ ha
          rfl
        · simp at ha
      · exact disconnectFn_noConn _ a ha
    · split at ha
      · obtain ⟨o, rfl⟩ := broadcast_shape _ _ _ ha
        rfl
      · simp at ha
  · intro a ha; simp at ha

end DJ.Worker

namespace DJ.Worker

open DJ

/-- If `closeCommon` scheduled a reconnect, the schedule guards held. -/
theorem closeCommon_sound (s2 : HostState) (acts1 : List Action) (a : Action)
    (hsend : ∀ b ∈ acts1, isConnAct b = false)
    (ha : a ∈ (closeCommon s2 acts1).2) (hc : isConnAct a = true) :
    s2.tabs ≠ [] ∧ hasVisibleTab s2 = true := by
  unfold closeCommon at ha
  dsimp only at ha
  split at ha
  · rcases List.mem_append.mp ha with ha | ha
    · rw [hsend a ha] at hc
      cases hc
    · exact scheduleReconnect_sound s2 a ha
  · rw [hsend a ha] at hc
    cases hc

/-- If `handleClose` scheduled a reconnect, the gating condition holds in the
resulting state: tabs non-empty, a visible tab, and (because a live socket
implies an already-passed suppression deadline, and this path does not set a
new one) the suppression deadline at or before the close time. -/
theorem handleClose_sound (s : HostState) (code now T : Nat)
    (h : LiveOk s T) (ht : T ≤ now)
    (hlive : s.socket = some .connecting ∨ s.socket = some .openSt)
    (a : Action) (ha : a ∈ (handleClose s code now).2)
    (hc : isConnAct a = true) :
    (handleClose s code now).1.tabs ≠ [] ∧
    hasVisibleTab (handleClose s code now).1 = true ∧
    (handleClose s code now).1.reconnectSuppressedUntil ≤ now := by
  have hsup : s.reconnectSuppressedUntil ≤ now := le_trans (h hlive) ht
  have hsend1 : ∀ b ∈ broadcast s.tabs WMsg.disconnected,
      isConnAct b = false := by
    intro b hb
    obtain ⟨o, rfl⟩ := broadcast_shape _ _ _ hb
    rfl
  unfold handleClose at ha ⊢
  dsimp only at ha ⊢
  by_cases hfast : (code = 1000 ∧
      0 ≤ (if s.lastOpenAt ≠ 0 then ((now : Int) - s.lastOpenAt) else -1) ∧
      (if s.lastOpenAt ≠ 0 then ((now : Int) - s.lastOpenAt) else -1)
        < 3000)
  · rw [if_pos hfast] at ha ⊢
    by_cases hcnt : s.fastClose1000Count + 1 ≥ 3
    · rw [if_pos hcnt] at ha ⊢
      exfalso
      rcases List.mem_append.mp ha with ha | ha <;>
        · obtain ⟨o, rfl⟩ := broadcast_shape _ _ _ ha
          simp [isConnAct] at hc
    · rw [if_neg hcnt] at ha ⊢
      have hs := closeCommon_sound _ _ a hsend1 ha hc
      refine ⟨?_, ?_, ?_⟩
      · rw [closeCommon_tabs]
        exact hs.1
      · rw [hasVisible_congr (closeCommon_tabs _ _)]
        exact hs.2
      · rw [closeCommon_suppressed]
        exact hsup
  · rw [if_neg hfast] at ha ⊢
    have hs := closeCommon_sound _ _ a hsend1 ha hc
    refine ⟨?_, ?_, ?_⟩
    · rw [closeCommon_tabs]
      exact hs.1
    · rw [hasVisible_congr (closeCommon_tabs _ _)]
      exact hs.2
    · rw [closeCommon_suppressed]
      exact hsup

end DJ.Worker

namespace DJ.Worker

open DJ

/-- Membership in a conditional singleton list. -/
theorem mem_ite_singleton {c : Prop} [Decidable c] (x a : Action)
    (ha : a ∈ (if c then [x] else [])) : a = x := by
  split at ha
  · exact List.mem_singleton.mp ha
  · simp at ha

/-- The early per-port conflict warning of `addTab` is a send. -/
theorem earlyActs_noConn (o : Option String) (tabId uid : String) :
    ∀ a ∈ (match o with
      | some u => if u ≠ uid then
          [Action.send ⟨tabId, WMsg.authConflict u uid⟩] else []
      | none => ([] : List Action)), isConnAct a = false := by
  match o with
  | none => intro a ha; simp at ha
  | some u =>
    dsimp only
    split
    · intro a ha
      rw [List.mem_singleton.mp ha]
      rfl
    · intro a ha; simp at ha

/-- Gating conclusion for `addTab`. -/
theorem addTab_goal (s : HostState) (id : String) (p : InitPayload)
    (now : Nat) (a : Action) (ha : a ∈ (addTab s id p now).2)
    (hc : isConnAct a = true) :
    (addTab s id p now).1.tabs ≠ [] ∧
    hasVisibleTab (addTab s id p now).1 = true ∧
    (addTab s id p now).1.reconnectSuppressedUntil ≤ now := by
  rw [addTab_unfold] at ha ⊢
  rcases List.mem_append.mp ha with ha | ha
  · rcases List.mem_append.mp ha with ha | ha
    · rcases List.mem_append.mp ha with ha | ha
      · rw [earlyActs_noConn _ _ _ a ha] at hc
        cases hc
      · rw [addTabIdentity_noConn _ _ a ha] at hc
        cases hc
    · rw [mem_ite_singleton _ a ha] at hc
      cases hc
  · exact checkVis_goal _ now a ha hc

/-- Gating conclusion for `removeTab`. -/
theorem removeTab_goal (s : HostState) (id : String) (now : Nat) (a : Action)
    (ha : a ∈ (removeTab s id now).2) (hc : isConnAct a = true) :
    (removeTab s id now).1.tabs ≠ [] ∧
    hasVisibleTab (removeTab s id now).1 = true ∧
    (removeTab s id now).1.reconnectSuppressedUntil ≤ now := by
  unfold removeTab at ha ⊢
  dsimp only at ha ⊢
  by_cases hemp : (tabsDelete s.tabs id).isEmpty = true
  · rw [if_pos hemp] at ha
    simp at ha
  · rw [if_neg hemp] at ha ⊢
    exact checkVis_goal _ now a ha hc

/-- Gating conclusion for `updateTabVisibility`. -/
theorem updateTabVisibility_goal (s : HostState) (id : String) (v : Bool)
    (now : Nat) (a : Action)
    (ha : a ∈ (updateTabVisibility s id v now).2) (hc : isConnAct a = true) :
    (updateTabVisibility s id v now).1.tabs ≠ [] ∧
    hasVisibleTab (updateTabVisibility s id v now).1 = true ∧
    (updateTabVisibility s id v now).1.reconnectSuppressedUntil ≤ now := by
  unfold updateTabVisibility at ha ⊢
  cases hget : tabsGet s.tabs id with
  | none =>
    rw [hget] at ha
    simp at ha
  | some t =>
    rw [hget] at ha
    dsimp only at ha ⊢
    exact checkVis_goal _ now a ha hc

/-- Gating conclusion for `handleNetworkOnline`. -/
theorem handleNetworkOnline_goal (s : HostState) (now : Nat) (a : Action)
    (ha : a ∈ (handleNetworkOnline s now).2) (hc : isConnAct a = true) :
    (handleNetworkOnline s now).1.tabs ≠ [] ∧
    hasVisibleTab (handleNetworkOnline s now).1 = true ∧
    (handleNetworkOnline s now).1.reconnectSuppressedUntil ≤ now := by
  unfold handleNetworkOnline at ha ⊢
  dsimp only at ha ⊢
  by_cases hopen : s.socket = some SockState.openSt
  · rw [if_pos hopen] at ha
    simp at ha
  · rw [if_neg hopen] at ha ⊢
    split at ha
    · next hcond =>
      rw [if_pos hcond]
      exact connectFn_goal _ now false a ha hc
    · next hcond =>
      rw [if_neg hcond]
      simp at ha

end DJ.Worker

namespace DJ.Claims

open DJ DJ.Worker

/-- C4: from any reachable worker state, an event step that opens a new
upstream transport or schedules a reconnect attempt leaves a state with a
non-empty tab table, at least one visible tab, and a suppression deadline at
or before the event time — in every other state the step performs neither
action. -/
theorem c4_reconnect_gating (s : HostState) (T : Nat) (hr : Reach s T)
    (e : WEvent) (now : Nat) (ht : T ≤ now) (hv : ValidEvent s e now)
    (a : Action) (ha : a ∈ (stepHost s e now).2) (hc : isConnAct a = true) :
    (stepHost s e now).1.tabs ≠ [] ∧
    hasVisibleTab (stepHost s e now).1 = true ∧
    (stepHost s e now).1.reconnectSuppressedUntil ≤ now := by
  match e with
  | .tabInit id p =>
    exact addTab_goal (refreshLastSeen s id now) id p now a ha hc
  | .tabSend id d =>
    have h0 := sendFn_noConn (refreshLastSeen s id now) d a ha
    rw [h0] at hc
    cases hc
  | .tabVisibility id v =>
    exact updateTabVisibility_goal (refreshLastSeen s id now) id v now a ha hc
  | .tabRegister id ty cid =>
    have h0 := registerCallback_noConn (refreshLastSeen s id now) id ty cid
      now a ha
    rw [h0] at hc
    cases hc
  | .tabUnregister id ty cid =>
    have h0 := unregisterCallback_noConn (refreshLastSeen s id now) id ty cid
      now a ha
    rw [h0] at hc
    cases hc
  | .tabDisconnect id =>
    exact removeTab_goal (refreshLastSeen s id now) id now a ha hc
  | .tabPing id =>
    have h0 : a = Action.send ⟨id, .pong⟩ := List.mem_singleton.mp ha
    rw [h0] at hc
    cases hc
  | .tabForceReset id =>
    have h0 := forceReset_noConn (refreshLastSeen s id now) a ha
    rw [h0] at hc
    cases hc
  | .tabForceShutdown id =>
    have h0 := forceShutdown_noConn (refreshLastSeen s id now) a ha
    rw [h0] at hc
    cases hc
  | .tabNetworkOnline id =>
    exact handleNetworkOnline_goal (refreshLastSeen s id now) now a ha hc
  | .socketOpen =>
    have h0 := handleOpen_noConn s now a ha
    rw [h0] at hc
    cases hc
  | .socketClose code =>
    exact handleClose_sound s code now T (reach_liveOk hr) ht hv a ha hc
  | .socketError =>
    have h0 := handleError_noConn s a ha
    rw [h0] at hc
    cases hc
  | .serverFrame f =>
    have h0 := handleIncoming_noConn s f a ha
    rw [h0] at hc
    cases hc
  | .reconnectTimerFire cf =>
    exact connectFn_goal { s with reconnectTimerSet := false } now cf a ha hc
  | .idleTimerFire =>
    have h0 := disconnectFn_noConn { s with idleTimerSet := false } a ha
    rw [h0] at hc
    cases hc
  | .heartbeatTimerFire =>
    have h0 := heartbeatTick_noConn s a ha
    rw [h0] at hc
    cases hc
  | .reapTab id =>
    exact removeTab_goal s id now a ha hc

/-- Witness for C4: from the initial state, a TAB_INIT of a visible tab at
time 5 opens a transport, and the gating condition holds afterwards. -/
theorem c4_witness :
    ((0 : Nat) ≤ 5 ∧
     ValidEvent initialHost (.tabInit "tab1" Fixtures.exPayloadA) 5 ∧
     Action.openSocket (buildUrl "ws://a" "u1" "t1") ∈
       (stepHost initialHost (.tabInit "tab1" Fixtures.exPayloadA) 5).2) ∧
    ((stepHost initialHost
        (.tabInit "tab1" Fixtures.exPayloadA) 5).1.tabs ≠ [] ∧
     hasVisibleTab (stepHost initialHost
        (.tabInit "tab1" Fixtures.exPayloadA) 5).1 = true ∧
     (stepHost initialHost
        (.tabInit "tab1" Fixtures.exPayloadA)
        5).1.reconnectSuppressedUntil ≤ 5) := by
  refine ⟨⟨by decide, trivial, by decide⟩, ?_⟩
  exact c4_reconnect_gating initialHost 0 Reach.init
    (.tabInit "tab1" Fixtures.exPayloadA) 5 (by decide) trivial
    (Action.openSocket (buildUrl "ws://a" "u1" "t1")) (by decide) (by decide)

end DJ.Claims
